import Mathlib

/-!
Shallow embedding of the battle engine in `battle_engine_v2.py` of
PokebotRANKED: its data model (`Battler`, `BattleState`, `BattleAction`),
the held-item manager, the entry-hazard engine, the action scheduler, the
turn resolver and the battle-end logic, together with theorems settling a
list of claims about them.

Injected collaborators whose code is not part of this source file
(the enhanced damage calculator, the per-combatant status manager, the
ability handler and the ruleset handler; see spec sections 4 and 6) are
modelled as abstract pure functions bundled in an `Env` record.  The
process-wide random source is modelled as an explicit stream of rational
samples threaded through the functions that draw from it.  Python machine
integers never overflow here (arbitrary precision), so `Nat`/`Int` model
them directly; `float` multipliers from the data tables are exact small
rationals in practice and are modelled as `Rat`.
-/

namespace Pokebot

/-- One entry of a combatant's move list, the dict with keys
`move_id` and `pp` that `_execute_move` and `generate_ai_action` read. -/
structure MoveSlot where
  move_id : String
  pp : Nat
deriving Repr, DecidableEq

/-- In-battle view of one combatant (a `Pokemon` object borrowed from the
caller's roster).  The dynamically attached attributes of the source
(`_consumed_items`, `_choice_locked_move`, `stat_stages`) are explicit
fields here; the optional `status_manager` attribute is modelled by the
flag `has_status_manager` plus its `volatile_statuses` map, with the
manager's methods abstracted in `Env`. -/
structure Pokemon where
  species_name : String
  max_hp : Nat
  current_hp : Nat
  speed : Nat
  moves : List MoveSlot
  /-- `species_data['types']` as stored; lower-cased at each use site,
  exactly as the source lower-cases on read. -/
  types : List String
  ability : Option String
  held_item : Option String
  consumed_items : List String
  choice_locked_move : Option String
  stat_stages : Option (List (String × Int))
  has_status_manager : Bool
  volatile_statuses : List String
deriving Repr, DecidableEq

instance : Inhabited Pokemon :=
  ⟨{ species_name := "", max_hp := 0, current_hp := 0, speed := 0,
     moves := [], types := [], ability := none, held_item := none,
     consumed_items := [], choice_locked_move := none, stat_stages := none,
     has_status_manager := false, volatile_statuses := [] }⟩

/-- `BattleType` of the source. -/
inductive BattleType where
  | WILD
  | TRAINER
  | PVP
deriving Repr, DecidableEq

/-- `BattleFormat` of the source. -/
inductive BattleFormat where
  | SINGLES
  | DOUBLES
  | MULTI
deriving Repr, DecidableEq

/-- `Battler`: one side of a battle. -/
structure Battler where
  battler_id : Int
  battler_name : String
  party : List Pokemon
  active_positions : List Nat
  is_ai : Bool
  can_switch : Bool
  can_use_items : Bool
  can_flee : Bool
deriving Repr, DecidableEq

/-- `BattleAction` of the source.  Unused cosmetic fields
(`mega_evolve`, `item_target_position`, `priority`, `speed`) are omitted:
the engine never reads them. -/
structure BattleAction where
  action_type : String
  battler_id : Int
  move_id : Option String
  target_position : Option Nat
  switch_to_position : Option Nat
  item_id : Option String
deriving Repr, DecidableEq

/-- `BattleState` of the source.  Cosmetic fields the resolver never
reads on the verified paths (`battle_log`, screens, `catch_attempted`,
ranked metadata, `fled` is kept since `_execute_flee` writes it) are kept
only where some claim observes them.  `pending_actions` is the insertion
ordered association list `str(battler_id) -> action` (Python dicts keep
insertion order, and `str` on distinct ints is injective, so the key is
modelled as the `Int` id itself). -/
structure BattleState where
  battle_id : String
  battle_type : BattleType
  battle_format : BattleFormat
  trainer : Battler
  opponent : Battler
  turn_number : Nat
  phase : String
  forced_switch_battler_id : Option Int
  is_over : Bool
  winner : Option String
  fled : Bool
  weather : Option String
  weather_turns : Int
  terrain : Option String
  terrain_turns : Int
  trainer_hazards : List (String × Nat)
  opponent_hazards : List (String × Nat)
  pending_actions : List (Int × BattleAction)
  turn_log : List String
  pending_ai_switch_index : Option Nat
  wild_dazed : Bool
  ruleset : String
deriving Repr, DecidableEq

/-- The two sides of a battle; the source passes `battle.trainer` /
`battle.opponent` object references around, modelled here by naming the
side. -/
inductive Side where
  | trainer
  | opponent
deriving Repr, DecidableEq

def Side.other : Side → Side
  | .trainer => .opponent
  | .opponent => .trainer

def BattleState.battlerOf (b : BattleState) : Side → Battler
  | .trainer => b.trainer
  | .opponent => b.opponent

def BattleState.setBattler (b : BattleState) : Side → Battler → BattleState
  | .trainer, bt => { b with trainer := bt }
  | .opponent, bt => { b with opponent := bt }

/-- `battler = battle.trainer if id == battle.trainer.battler_id else
battle.opponent` — the pattern used throughout the source: an id that
matches neither side falls through to the opponent. -/
def sideFor (b : BattleState) (id : Int) : Side :=
  if id = b.trainer.battler_id then .trainer else .opponent

/-- `Battler.get_active_pokemon`: `[party[i] for i in active_positions if
i < len(party)]`.  Kept as the list of party indices... -/
def Battler.activeIndices (bt : Battler) : List Nat :=
  bt.active_positions.filter (fun i => i < bt.party.length)

/-- ... and as the list of combatants, as the source returns it. -/
def Battler.get_active_pokemon (bt : Battler) : List Pokemon :=
  bt.activeIndices.map (fun i => bt.party.getD i default)

/-- `Battler.has_usable_pokemon`: `any(p.current_hp > 0 for p in party)`. -/
def Battler.has_usable_pokemon (bt : Battler) : Bool :=
  bt.party.any (fun p => decide (0 < p.current_hp))

/-- Functional update of one party slot (the source mutates the borrowed
`Pokemon` object in place; here the slot is rewritten). -/
def Battler.setPoke (bt : Battler) (i : Nat) (p : Pokemon) : Battler :=
  { bt with party := bt.party.set i p }

def BattleState.setPoke (b : BattleState) (s : Side) (i : Nat) (p : Pokemon) :
    BattleState :=
  b.setBattler s ((b.battlerOf s).setPoke i p)

/-- Move descriptor returned by `moves_db.get_move`. -/
structure MoveData where
  id : String
  name : String
  type : String
  category : String
  priority : Int
deriving Repr, DecidableEq

/-- Item descriptor returned by `items_db.get_item`; the optional keys of
its `effect_data` dict are explicit optional/boolean fields. -/
structure ItemData where
  id : String
  name : String
  trigger : Option String
  blocks_status_moves : Bool
  locks_move : Bool
  type : Option String
  power_multiplier : Option Rat
  stat : Option String
  multiplier : Option Rat
  prevents_ko : Bool
  requires_full_hp : Bool
  activation_chance : Option Rat
  one_time_use : Bool
  recoil_percent : Option Rat
  heal_percent : Option Rat
deriving Repr, DecidableEq

/-- Modelled from the spec: the injected collaborators of sections 4.4,
4.5 and 6 whose code is outside this source file.  `calc_damage` is
`EnhancedDamageCalculator.calculate_damage_with_effects` (damage, crit
flag, effectiveness, messages); `calc_speed` its `get_speed`; `can_move`,
`can_apply_status`, `apply_status` and `status_end_of_turn` are the
`StatusConditionManager` methods attached to a combatant; `on_entry`,
`weather_damage` and `weather_heal` are the `AbilityHandler` hooks (which
per spec touch only the combatant and weather, never the battle phase or
outcome); `ruleset_allowed` is `RulesetHandler.is_move_allowed`.
`enhanced` is the module flag `ENHANCED_SYSTEMS_AVAILABLE`; `items_db` is
`some` exactly when a `HeldItemManager` was constructed. -/
structure Env where
  moves_db : String → Option MoveData
  items_db : Option (String → Option ItemData)
  type_chart : List (String × List (String × Rat))
  enhanced : Bool
  calc_damage : Pokemon → Pokemon → String → Option String → Option String →
    BattleState → Nat × Bool × Rat × List String
  calc_speed : Pokemon → Nat
  can_move : Pokemon → Bool × String
  can_apply_status : Pokemon → String → Bool × String
  apply_status : Pokemon → String → Pokemon × Bool × String
  status_end_of_turn : Pokemon → Pokemon × List String
  on_entry : Pokemon → List String
  weather_damage : Pokemon → String → Pokemon × Option String
  weather_heal : Pokemon → String → Pokemon × Option String
  ruleset_allowed : String → String → Bool × String

/-- Stream of samples standing for the process-wide `random` source. -/
abbrev RNG := List Rat

/-- Draw one uniform sample; an exhausted stream repeats 0 (the stream is
always long enough in every run below). -/
def draw (g : RNG) : Rat × RNG :=
  match g with
  | [] => (0, [])
  | r :: g' => (r, g')

/-- Executable lower-casing (equal to `String.toLower`, which is defined
by well-founded recursion and does not reduce; see `strLower_eq`). -/
def strLower (s : String) : String := ⟨s.data.map Char.toLower⟩

/-- Floor of a rational, in the executable form `num / den` (equal to
`Int.floor`, see `ratFloor_eq_floor`). -/
def ratFloor (q : Rat) : Int := q.num / (q.den : Int)

/-- Ceiling of a rational (equal to `Int.ceil`, see `ratCeil_eq_ceil`). -/
def ratCeil (q : Rat) : Int := -ratFloor (-q)

/-- Python's `int(round(x))`: round half to even, then truncate (the
value is already integral after rounding). -/
def pyRound (q : Rat) : Int :=
  let f := ratFloor q
  let frac := q - (f : Rat)
  if frac < 1/2 then f
  else if 1/2 < frac then f + 1
  else if f % 2 = 0 then f else f + 1

/-- Association-list membership used for the hazard maps. -/
def lookupH (h : List (String × Nat)) (k : String) : Option Nat :=
  (h.find? (fun e => e.1 == k)).map (fun e => e.2)

/-- `dict.pop(k, None)`. -/
def popH (h : List (String × Nat)) (k : String) : List (String × Nat) :=
  h.filter (fun e => e.1 != k)

/-! ## Held-item manager (`HeldItemManager`)

Each function takes the lookup `idb : String → Option ItemData` standing
for `self.items_db.get_item`; engine code only calls them when
`self.held_item_manager` exists, i.e. when `Env.items_db` is `some idb`. -/

/-- `HeldItemManager._is_consumed`. -/
def is_consumed (p : Pokemon) (item_id : String) : Bool :=
  p.consumed_items.contains item_id

/-- `HeldItemManager._consume` (`set.add`; duplicates are harmless for a
membership-only set, insertion keeps it duplicate free). -/
def consume (p : Pokemon) (item_id : String) : Pokemon :=
  if is_consumed p item_id then p
  else { p with consumed_items := item_id :: p.consumed_items }

/-- `HeldItemManager._get_item`: `None` without a held item (the falsy
check also catches an empty id, represented by `none`) and for a consumed
one. -/
def get_item (idb : String → Option ItemData) (p : Pokemon) :
    Option ItemData :=
  match p.held_item with
  | none => none
  | some item_id => if is_consumed p item_id then none else idb item_id

/-- `HeldItemManager.check_move_restrictions`: status-move block, then the
choice lock (`locked and move_id and move_id != locked`). -/
def check_move_restrictions (idb : String → Option ItemData) (p : Pokemon)
    (md : MoveData) : Option String :=
  match get_item idb p with
  | none => none
  | some item =>
    if item.blocks_status_moves && md.category == "status" then
      some (p.species_name ++ " cant use status moves while holding " ++
        item.name ++ "!")
    else if item.locks_move then
      match p.choice_locked_move with
      | none => none
      | some locked =>
        if md.id != locked then
          some (p.species_name ++ " is locked into " ++ md.name ++
            " because of its " ++ item.name ++ "!")
        else none
    else none

/-- `HeldItemManager.register_move_use`: a `locks_move` item stores the
attempted move id on the attacker. -/
def register_move_use (idb : String → Option ItemData) (p : Pokemon)
    (md : MoveData) : Pokemon :=
  match get_item idb p with
  | none => p
  | some item =>
    if item.locks_move then { p with choice_locked_move := some md.id }
    else p

/-- `HeldItemManager.clear_choice_lock`. -/
def clear_choice_lock (p : Pokemon) : Pokemon :=
  { p with choice_locked_move := none }

/-- `HeldItemManager._power_multiplier`: the type bonus applies when the
item names a type and it matches the move type; otherwise a bare
`power_multiplier` applies unconditionally; independently a matching
`stat` bonus multiplies by `multiplier`. -/
def power_multiplier (idb : String → Option ItemData) (p : Pokemon)
    (md : MoveData) : Rat :=
  match get_item idb p with
  | none => 1
  | some item =>
    let move_type := strLower md.type
    let m1 : Rat :=
      match item.type with
      | some t =>
        if move_type == strLower t then (item.power_multiplier).getD 1 else 1
      | none =>
        match item.power_multiplier with
        | some pm => pm
        | none => 1
    let stat_mult := (item.multiplier).getD 1
    let m2 : Rat :=
      if item.stat == some "attack" && md.category == "physical" then
        stat_mult
      else if item.stat == some "sp_attack" && md.category == "special" then
        stat_mult
      else 1
    m1 * m2

/-- `HeldItemManager._defense_multiplier`. -/
def defense_multiplier (idb : String → Option ItemData) (p : Pokemon)
    (md : MoveData) : Rat :=
  match get_item idb p with
  | none => 1
  | some item =>
    if item.stat == some "sp_defense" && md.category == "special" then
      (item.multiplier).getD 1
    else 1

/-- `HeldItemManager._try_focus_items`.  Returns the possibly capped
damage, the survival message, the possibly updated defender (item
consumption) and the advanced random stream (`random.random()` is drawn
only on the `activation_chance` path, as in the source). -/
def try_focus_items (idb : String → Option ItemData) (g : RNG)
    (defender : Pokemon) (damage : Nat) :
    Nat × Option String × Pokemon × RNG :=
  if damage < defender.current_hp || defender.current_hp == 0 then
    (damage, none, defender, g)
  else
    match get_item idb defender with
    | none => (damage, none, defender, g)
    | some item =>
      if (match item.trigger with
          | some t => t != "before_damage"
          | none => false) then
        (damage, none, defender, g)
      else if !(item.prevents_ko || item.requires_full_hp ||
          (item.activation_chance).isSome) then
        (damage, none, defender, g)
      else if item.requires_full_hp &&
          decide (defender.current_hp < defender.max_hp) then
        (damage, none, defender, g)
      else
        let (roll, g') :=
          match item.activation_chance with
          | some _ => draw g
          | none => (0, g)
        if (match item.activation_chance with
            | some a => decide (a < roll)
            | none => false) then
          (damage, none, defender, g')
        else if defender.current_hp ≤ 1 then
          (damage, none, defender, g')
        else
          let capped := defender.current_hp - 1
          let msg := defender.species_name ++ " hung on using its " ++
            item.name ++ "!"
          let defender' :=
            if item.one_time_use then consume defender item.id else defender
          (capped, some msg, defender', g')

/-- `HeldItemManager.modify_damage`: power multiplier (rounded), a
`sp_defense` divisor (`max(1, ceil(damage / m))` when `m > 1`), then the
focus-item cap.  Returns damage, messages, the updated defender and the
random stream. -/
def modify_damage (idb : String → Option ItemData) (g : RNG)
    (attacker defender : Pokemon) (md : MoveData) (damage : Nat) :
    Nat × List String × Pokemon × RNG :=
  if damage == 0 then (damage, [], defender, g)
  else
    let damage1 := (pyRound ((damage : Rat) * power_multiplier idb attacker md)).toNat
    let dm := defense_multiplier idb defender md
    let damage2 :=
      if 1 < dm then max 1 (ratCeil ((damage1 : Rat) / dm)).toNat
      else damage1
    let (damage3, survival_msg, defender', g') :=
      try_focus_items idb g defender damage2
    (damage3, survival_msg.toList, defender', g')

/-- `HeldItemManager.apply_after_damage`: registers the choice lock even
on a miss, then item recoil (`max(1, round(max_hp * pct/100))`) when
damage was dealt.  Returns the updated attacker and messages. -/
def apply_after_damage (idb : String → Option ItemData) (attacker : Pokemon)
    (md : MoveData) (dealt_damage : Nat) : Pokemon × List String :=
  match get_item idb attacker with
  | none => (attacker, [])
  | some item =>
    let attacker1 := register_move_use idb attacker md
    if dealt_damage == 0 then (attacker1, [])
    else
      match item.recoil_percent with
      | some pct =>
        let recoil := max 1 (pyRound ((attacker1.max_hp : Rat) * (pct / 100))).toNat
        let attacker2 :=
          { attacker1 with current_hp := attacker1.current_hp - recoil }
        (attacker2, [attacker2.species_name ++ " was hurt by its " ++
          item.name ++ "! (-" ++ toString recoil ++ " HP)"])
      | none => (attacker1, [])

/-- `HeldItemManager.process_end_of_turn`: passive heal
(`max(1, round(max_hp * pct/100))`, capped at `max_hp`) only when alive
and below full HP. -/
def item_process_end_of_turn (idb : String → Option ItemData)
    (p : Pokemon) : Pokemon × List String :=
  match get_item idb p with
  | none => (p, [])
  | some item =>
    match item.heal_percent with
    | none => (p, [])
    | some pct =>
      if p.current_hp == 0 || decide (p.max_hp ≤ p.current_hp) then (p, [])
      else
        let heal := max 1 (pyRound ((p.max_hp : Rat) * (pct / 100))).toNat
        let p' := { p with current_hp := min p.max_hp (p.current_hp + heal) }
        (p', [p'.species_name ++ " restored health with its " ++
          item.name ++ "! (+" ++ toString heal ++ " HP)"])

/-- `HeldItemManager.get_speed_multiplier`. -/
def get_speed_multiplier (idb : String → Option ItemData) (p : Pokemon) :
    Rat :=
  match get_item idb p with
  | none => 1
  | some item =>
    if item.stat == some "speed" then (item.multiplier).getD 1 else 1

/-! ## Battle-end check and effective speed -/

/-- `BattleEngine._check_battle_end`. -/
def check_battle_end (b : BattleState) : BattleState :=
  let trainer_has := b.trainer.has_usable_pokemon
  let opponent_has := b.opponent.has_usable_pokemon
  if !trainer_has && !opponent_has then
    { b with is_over := true, winner := some "draw" }
  else if !trainer_has then
    { b with is_over := true, winner := some "opponent" }
  else if !opponent_has then
    { b with is_over := true, winner := some "trainer" }
  else b

/-- `BattleEngine._get_effective_speed`: raw `speed`, replaced by the
enhanced calculator's `get_speed` when available (its `except` fallback to
the raw stat is subsumed by choosing `calc_speed`), then
`int(round(speed * held_multiplier))` when a held-item manager exists. -/
def get_effective_speed (env : Env) (p : Pokemon) : Nat :=
  let speed := if env.enhanced then env.calc_speed p else p.speed
  match env.items_db with
  | none => speed
  | some idb =>
    (pyRound ((speed : Rat) * get_speed_multiplier idb p)).toNat

/-! ## Action scheduler (`BattleEngine._sort_actions`)

`actions.sort(key=get_action_priority, reverse=True)` is Python's stable
sort by the key `(class, speed)`, descending.  It is modelled by the
extensionally identical stable sort: annotate each action with its
registration index, insertion-sort by the strict total order "key
strictly greater, or keys equal and registered earlier", and drop the
indices. -/

/-- `get_action_priority` inside `_sort_actions`: `(100, 999)` for a
switch, `(90, 999)` for an item, `(move priority, effective speed of the
first active combatant of the acting side)` for a move, `(0, 0)` for a
flee.  (On an unknown move id the source would raise; `getD 0` stands in
for that unreachable-on-verified-paths case.) -/
def action_key (env : Env) (b : BattleState) (a : BattleAction) :
    Int × Int :=
  if a.action_type == "switch" then (100, 999)
  else if a.action_type == "item" then (90, 999)
  else if a.action_type == "move" then
    let md := env.moves_db (a.move_id.getD "")
    let priority := (md.map (fun m => m.priority)).getD 0
    let battler := b.battlerOf (sideFor b a.battler_id)
    let pokemon := battler.get_active_pokemon.headD default
    (priority, (get_effective_speed env pokemon : Int))
  else (0, 0)

/-- Strict lexicographic "greater" on sort keys. -/
def keyGt (x y : Int × Int) : Bool :=
  decide (y.1 < x.1) || (x.1 == y.1 && decide (y.2 < x.2))

/-- Stable insertion: place `x` before the first element it strictly
precedes. -/
def sinsert (before : α → α → Bool) (x : α) : List α → List α
  | [] => [x]
  | y :: ys => if before x y then x :: y :: ys else y :: sinsert before x ys

/-- Insertion sort with respect to a strict order. -/
def ssort (before : α → α → Bool) : List α → List α
  | [] => []
  | x :: xs => sinsert before x (ssort before xs)

/-- The strict total order realising the stable descending sort on
registration-indexed actions. -/
def sched_before (env : Env) (b : BattleState) (x y : Nat × BattleAction) :
    Bool :=
  keyGt (action_key env b x.2) (action_key env b y.2) ||
  (action_key env b x.2 == action_key env b y.2 && decide (x.1 < y.1))

/-- The sorted list, still carrying registration indices. -/
def sort_actions_indexed (env : Env) (b : BattleState)
    (acts : List BattleAction) : List (Nat × BattleAction) :=
  ssort (sched_before env b) acts.enum

/-- `BattleEngine._sort_actions`. -/
def sort_actions (env : Env) (b : BattleState) (acts : List BattleAction) :
    List BattleAction :=
  (sort_actions_indexed env b acts).map (fun e => e.2)

/-! ## Hazard engine (`BattleEngine._apply_entry_hazards`)

The duplicated stealth-rock fragment after the `return` in the source is
dead code and is not modelled (spec section 9 calls it a dead fragment). -/

/-- Effectiveness of rock against the (lower-cased) type list: product of
the chart's `rock` row over the types it lists; `1` when the chart has no
`rock` row. -/
def rock_effectiveness (chart : List (String × List (String × Rat)))
    (types : List String) : Rat :=
  match chart.find? (fun e => e.1 == "rock") with
  | none => 1
  | some row =>
    types.foldl
      (fun eff t =>
        match row.2.find? (fun e => e.1 == t) with
        | some m => eff * m.2
        | none => eff) 1

/-- Stealth-rock damage: `base = max(1, max_hp // 8)`;
`max(1, int(base * eff))` when `eff > 0`, else `0` (`int` truncates, and
chart multipliers are nonnegative, so this is the floor). -/
def stealth_rock_damage (maxhp : Nat) (eff : Rat) : Nat :=
  let base := max 1 (maxhp / 8)
  if 0 < eff then max 1 (ratFloor ((base : Rat) * eff)).toNat else 0

/-- Stat-stage map the source initialises when `stat_stages` is absent. -/
def default_stages : List (String × Int) :=
  [("attack", 0), ("defense", 0), ("sp_attack", 0), ("sp_defense", 0),
   ("speed", 0), ("evasion", 0), ("accuracy", 0)]

/-- Grounded test of `_apply_entry_hazards`: not flying-typed and the
ability (via `str(...).lower()`, so a missing ability is the string
`"None"`) is not levitate. -/
def grounded_check (p : Pokemon) : Bool :=
  !((p.types.map strLower).contains "flying") &&
  !(match p.ability with
    | some a => strLower a == "levitate"
    | none => false)

def lookupStage (st : List (String × Int)) (k : String) : Int :=
  ((st.find? (fun e => e.1 == k)).map (fun e => e.2)).getD 0

def setStage (st : List (String × Int)) (k : String) (v : Int) :
    List (String × Int) :=
  st.map (fun e => if e.1 == k then (e.1, v) else e)

/-- Stealth-rock block of `_apply_entry_hazards` (`types` is the
lower-cased type list extracted on entry; the source's
`hasattr(pokemon, 'species_data')` guard holds for every modelled
combatant). -/
def hazard_stealth_rock (env : Env) (hazards : List (String × Nat))
    (types : List String) (p : Pokemon) : Pokemon × List String :=
  if (lookupH hazards "stealth_rock").isSome then
    let eff := rock_effectiveness env.type_chart types
    let dmg := stealth_rock_damage p.max_hp eff
    if 0 < dmg then
      ({ p with current_hp := p.current_hp - dmg },
       [p.species_name ++ " is hurt by Stealth Rock! (-" ++ toString dmg ++
        " HP)"])
    else (p, [])
  else (p, [])

/-- Spikes block of `_apply_entry_hazards`: 1/8, 1/6 or 1/4 of max HP by
layer count (grounded only), floored, minimum 1. -/
def hazard_spikes (hazards : List (String × Nat)) (is_grounded : Bool)
    (p : Pokemon) : Pokemon × List String :=
  if is_grounded && (lookupH hazards "spikes").isSome then
    let layers := min 3 ((lookupH hazards "spikes").getD 1)
    let den : Nat := if layers == 1 then 8 else if layers == 2 then 6 else 4
    let dmg := max 1 (p.max_hp * 1 / den)
    ({ p with current_hp := p.current_hp - dmg },
     [p.species_name ++ " is hurt by Spikes! (-" ++ toString dmg ++ " HP)"])
  else (p, [])

/-- Toxic-spikes block of `_apply_entry_hazards` (grounded only): a
poison-type entrant absorbs the layers (clearing that side's entry), a
steel-type is unaffected, anyone else gets `psn`/`tox` through the
status manager's can-apply gate.  Returns the battle (for the cleared
hazard map), the combatant and the narration. -/
def hazard_toxic (env : Env) (b : BattleState) (side : Side)
    (hazards : List (String × Nat)) (is_grounded : Bool)
    (types : List String) (p : Pokemon) :
    BattleState × Pokemon × List String :=
  if (lookupH hazards "toxic_spikes").isSome && is_grounded then
    let layers := min 2 ((lookupH hazards "toxic_spikes").getD 1)
    if types.contains "poison" then
      let b' :=
        match side with
        | .opponent =>
          { b with opponent_hazards := popH b.opponent_hazards "toxic_spikes" }
        | .trainer =>
          { b with trainer_hazards := popH b.trainer_hazards "toxic_spikes" }
      (b', p, [p.species_name ++ " absorbed the Toxic Spikes!"])
    else if !(types.contains "steel") then
      if p.has_status_manager then
        let status := if 2 ≤ layers then "tox" else "psn"
        if (env.can_apply_status p status).1 then
          let r := env.apply_status p status
          if r.2.1 && r.2.2 != "" then
            (b, r.1, [p.species_name ++ " " ++ r.2.2])
          else (b, r.1, [])
        else (b, p, [])
      else (b, p, [])
    else (b, p, [])
  else (b, p, [])

/-- Sticky-web block of `_apply_entry_hazards` (grounded only): lower
the speed stage by one, floor −6, initialising a missing `stat_stages`
map first. -/
def hazard_sticky (hazards : List (String × Nat)) (is_grounded : Bool)
    (p : Pokemon) : Pokemon × List String :=
  if (lookupH hazards "sticky_web").isSome && is_grounded then
    let st := (p.stat_stages).getD default_stages
    let st' := setStage st "speed" (max (-6) (lookupStage st "speed" - 1))
    ({ p with stat_stages := some st' },
     [p.species_name ++ "s Speed fell! (-1)"])
  else (p, [])

/-- `BattleEngine._apply_entry_hazards` for the combatant at party slot
`i` of `side` (the source receives the object; the slot identifies it).
Returns the updated battle (combatant written back, toxic-spikes layers
possibly absorbed) and the narration.  The duplicated stealth-rock
fragment after the `return` in the source is dead code and is not
modelled (spec section 9 calls it a dead fragment). -/
def apply_entry_hazards (env : Env) (b : BattleState) (side : Side)
    (i : Nat) : BattleState × List String :=
  let hazards :=
    match side with
    | .opponent => b.opponent_hazards
    | .trainer => b.trainer_hazards
  if hazards.isEmpty then (b, [])
  else
    let p0 := (b.battlerOf side).party.getD i default
    let types := p0.types.map strLower
    let is_grounded := grounded_check p0
    let r1 := hazard_stealth_rock env hazards types p0
    let r2 := hazard_spikes hazards is_grounded r1.1
    let r3 := hazard_toxic env b side hazards is_grounded types r2.1
    let r4 := hazard_sticky hazards is_grounded r3.2.1
    (r3.1.setPoke side i r4.1, r1.2 ++ r2.2 ++ r3.2.2 ++ r4.2)

/-! ## Move execution (`BattleEngine._execute_move`) -/

/-- Attacker selection of `_execute_move`: the acting side's first
active combatant (`get_active_pokemon()[0]`), for every format. -/
def move_attacker_loc (b : BattleState) (a : BattleAction) : Side × Nat :=
  let atkSide := sideFor b a.battler_id
  (atkSide, (b.battlerOf atkSide).activeIndices.headD 0)

/-- Defender selection of `_execute_move`: the opposing side's active
combatant at `action.target_position or 0` (`None` and `0` both select
slot 0 under Python truthiness). -/
def move_defender_loc (b : BattleState) (a : BattleAction) : Side × Nat :=
  let defSide := (sideFor b a.battler_id).other
  (defSide,
   (b.battlerOf defSide).activeIndices.getD (a.target_position.getD 0) 0)

/-- PP deduction loop of `_execute_move`: the first slot whose `move_id`
matches loses one PP (`max(0, pp - 1)`, which is `Nat` subtraction) and
the scan `break`s; other slots are untouched. -/
def deductPP (ms : List MoveSlot) (mid : String) : List MoveSlot :=
  match ms with
  | [] => []
  | m :: rest =>
    if m.move_id == mid then { m with pp := m.pp - 1 } :: rest
    else m :: deductPP rest mid

/-- Damage section of `_execute_move`: enhanced calculator (or the fixed
fallback of 10 neutral damage), held-item damage modifiers, then the
endure cap.  Returns final damage, effectiveness, crit flag, effect
messages, the (possibly focus-consumed) defender and the random stream. -/
def move_damage_pipeline (env : Env) (g : RNG) (b : BattleState)
    (attacker defender : Pokemon) (mid : String) (md : MoveData) :
    Nat × Rat × Bool × List String × Pokemon × RNG :=
  let (damage, is_crit, eff, effect_msgs) :=
    if env.enhanced then
      env.calc_damage attacker defender mid b.weather b.terrain b
    else (10, false, 1, [])
  let (damage, held_msgs, defender, g) :=
    match env.items_db with
    | some idb => modify_damage idb g attacker defender md damage
    | none => (damage, [], defender, g)
  let effect_msgs := effect_msgs ++ held_msgs
  let (damage, effect_msgs) :=
    if decide (defender.current_hp ≤ damage) && defender.has_status_manager
        && defender.volatile_statuses.contains "endure" then
      if 1 < defender.current_hp then
        (defender.current_hp - 1,
         effect_msgs ++ [defender.species_name ++ " endured the hit!"])
      else (damage, effect_msgs)
    else (damage, effect_msgs)
  (damage, eff, is_crit, effect_msgs, defender, g)

/-- Faint / daze section of `_execute_move` (`defender.current_hp <= 0`).
Wild mode with the opponent's combatant down converts to the dazed state
(HP clamped to 1, `wild_dazed`, phase `DAZED`); otherwise faint, with the
forced-switch bookkeeping for a human trainer or an AI side, calling
`_check_battle_end` exactly where the source does. -/
def execute_move_faint (b : BattleState) (defSide : Side) (defIdx : Nat)
    (messages : List String) : BattleState × List String :=
  let defender := (b.battlerOf defSide).party.getD defIdx default
  if b.battle_type == BattleType.WILD && defSide == Side.opponent then
    let b' :=
      { b.setPoke defSide defIdx { defender with current_hp := 1 } with
        wild_dazed := true, phase := "DAZED" }
    (b', messages ++ ["The wild " ++ defender.species_name ++ " is dazed!"])
  else
    let messages := messages ++ [defender.species_name ++ " fainted!"]
    let defB := b.battlerOf defSide
    if defSide == Side.trainer && !defB.is_ai then
      if defB.has_usable_pokemon then
        let usable_count := (defB.party.enum.filter
          (fun e => decide (0 < e.2.current_hp) && e.1 != defIdx)).length
        if 0 < usable_count then
          ({ b with phase := "FORCED_SWITCH",
                    forced_switch_battler_id := some defB.battler_id },
           messages ++ ["You must send out another Pokemon!"])
        else (check_battle_end b, messages)
      else (b, messages)
    else if defB.is_ai && (b.battle_type == BattleType.TRAINER ||
        b.battle_type == BattleType.PVP) then
      if defB.has_usable_pokemon then
        let replacement := (defB.party.enum.find?
          (fun e => e.1 != defIdx && decide (0 < e.2.current_hp))).map
          (fun e => e.1)
        match replacement with
        | some idx =>
          ({ b with phase := "FORCED_SWITCH",
                    forced_switch_battler_id := some defB.battler_id,
                    pending_ai_switch_index := some idx }, messages)
        | none => (b, messages)
      else (check_battle_end b, messages)
    else (b, messages)

/-- Body of `_execute_move` past the four gates (the attacker is passed
as looked up, the move descriptor as found): PP deduction, the damage
pipeline, damage application, narration, after-damage item effects and
faint/daze handling. -/
def execute_move_core (env : Env) (g : RNG) (b : BattleState)
    (action : BattleAction) (attacker0 : Pokemon) (md : MoveData) :
    BattleState × List String × RNG :=
  let atkLoc := move_attacker_loc b action
  let defLoc := move_defender_loc b action
  let defender := (b.battlerOf defLoc.1).party.getD defLoc.2 default
  let mid := action.move_id.getD ""
  let attacker := { attacker0 with moves := deductPP attacker0.moves mid }
  let pipe := move_damage_pipeline env g b attacker defender mid md
  let damage := pipe.1
  let eff := pipe.2.1
  let is_crit := pipe.2.2.1
  let effect_msgs := pipe.2.2.2.1
  let defender := pipe.2.2.2.2.1
  let g := pipe.2.2.2.2.2
  let defender :=
    if 0 < damage then
      { defender with current_hp := defender.current_hp - damage }
    else defender
  let crit_text := if is_crit then " Its a critical hit!" else ""
  let eff_text :=
    if 1 < eff then " Its super effective!"
    else if 0 < eff && eff < 1 then " Its not very effective..."
    else if eff == 0 then " It doesnt affect the target..."
    else ""
  let move_msg := attacker.species_name ++ " used " ++ md.name ++ "!" ++
    (if 0 < damage then
      " (" ++ toString damage ++ " damage)" ++ crit_text ++ eff_text
     else "")
  let messages := [move_msg] ++ effect_msgs
  let ad :=
    match env.items_db with
    | some idb => apply_after_damage idb attacker md damage
    | none => (attacker, [])
  let attacker := ad.1
  let messages := messages ++ ad.2
  let b1 := (b.setPoke atkLoc.1 atkLoc.2 attacker).setPoke defLoc.1
    defLoc.2 defender
  if defender.current_hp == 0 then
    let fd := execute_move_faint b1 defLoc.1 defLoc.2 messages
    (fd.1, fd.2, g)
  else
    (b1, messages, g)

/-- `BattleEngine._execute_move`: status-manager gate, unknown-move
narration, held-item restriction, ruleset gate, then
`execute_move_core`. -/
def execute_move (env : Env) (g : RNG) (b : BattleState)
    (action : BattleAction) : BattleState × List String × RNG :=
  let atkLoc := move_attacker_loc b action
  let attacker := (b.battlerOf atkLoc.1).party.getD atkLoc.2 default
  let mid := action.move_id.getD ""
  if env.enhanced && attacker.has_status_manager &&
      !(env.can_move attacker).1 then
    (b, [(env.can_move attacker).2], g)
  else
    match env.moves_db mid with
    | none => (b, [attacker.species_name ++ " tried to use an unknown move!"], g)
    | some md =>
      let restriction :=
        match env.items_db with
        | some idb => check_move_restrictions idb attacker md
        | none => none
      match restriction with
      | some r => (b, [r], g)
      | none =>
        if !(env.ruleset_allowed mid b.ruleset).1 then
          (b, [attacker.species_name ++ " tried to use " ++ md.name ++
               " but its banned by rules."], g)
        else execute_move_core env g b action attacker md

/-! ## Switch, item and flee execution -/

/-- `BattleEngine._execute_switch`: replace `active_positions[0]`, clear
the outgoing combatant's choice lock (when a held-item manager exists),
run the on-entry ability hook (messages only, per the spec interface),
then entry hazards for the incoming combatant. -/
def execute_switch (env : Env) (b : BattleState) (action : BattleAction)
    (forced : Bool) : BattleState × List String :=
  let side := sideFor b action.battler_id
  let battler := b.battlerOf side
  let oldIdx := battler.activeIndices.headD 0
  let old_pokemon := battler.party.getD oldIdx default
  let newIdx := action.switch_to_position.getD 0
  let battler1 :=
    { battler with active_positions := battler.active_positions.set 0 newIdx }
  let battler2 :=
    match env.items_db with
    | some _ => battler1.setPoke oldIdx (clear_choice_lock old_pokemon)
    | none => battler1
  let b1 := b.setBattler side battler2
  let new_pokemon := battler2.party.getD newIdx default
  let ability_msgs := if env.enhanced then env.on_entry new_pokemon else []
  let hz := apply_entry_hazards env b1 side newIdx
  let lead :=
    if forced then
      [battler.battler_name ++ " sent out " ++ new_pokemon.species_name ++ "!"]
    else
      [battler.battler_name ++ " withdrew " ++ old_pokemon.species_name ++ "!",
       "Go, " ++ new_pokemon.species_name ++ "!"]
  (hz.1, lead ++ ability_msgs ++ hz.2)

/-- `BattleEngine._execute_item` (a stub in the source). -/
def execute_item (b : BattleState) (action : BattleAction) :
    BattleState × List String :=
  (b, ["Used " ++ action.item_id.getD "" ++ "!"])

/-- `BattleEngine._execute_flee`: refusal outside wild battles, else a
coin flip (`random.random() < 0.5`). -/
def execute_flee (g : RNG) (b : BattleState) :
    BattleState × List String × RNG :=
  if b.battle_type != BattleType.WILD then
    (b, ["Cant flee from a trainer battle!"], g)
  else
    let (r, g') := draw g
    if r < 1/2 then
      ({ b with is_over := true, fled := true, winner := none },
       ["Got away safely!"], g')
    else (b, ["Cant escape!"], g')

/-- `BattleEngine._execute_action` dispatch. -/
def execute_action (env : Env) (g : RNG) (b : BattleState)
    (a : BattleAction) : BattleState × List String × RNG :=
  if a.action_type == "move" then execute_move env g b a
  else if a.action_type == "switch" then
    let r := execute_switch env b a false
    (r.1, r.2, g)
  else if a.action_type == "item" then
    let r := execute_item b a
    (r.1, r.2, g)
  else if a.action_type == "flee" then execute_flee g b
  else (b, [], g)

/-! ## Forced switch (`BattleEngine.force_switch`) -/

/-- Body of `force_switch` once the battle is looked up: phase/owner
check, slot range check (`switch_to_position` arrives as a possibly
negative int), target usability check, then the forced switch plus the
state resets.  Every error path leaves the battle untouched. -/
def force_switch_core (env : Env) (b : BattleState) (battler_id : Int)
    (switch_to_position : Int) : Except String (BattleState × List String) :=
  if b.phase != "FORCED_SWITCH" ||
      b.forced_switch_battler_id != some battler_id then
    .error "No forced switch is pending"
  else
    let battler := b.battlerOf (sideFor b battler_id)
    if switch_to_position < 0 ||
        (battler.party.length : Int) ≤ switch_to_position then
      .error "Invalid party slot"
    else
      let target := battler.party.getD switch_to_position.toNat default
      if target.current_hp == 0 then .error "That Pokemon cant battle"
      else
        let action : BattleAction :=
          { action_type := "switch", battler_id := battler_id,
            move_id := none, target_position := none,
            switch_to_position := some switch_to_position.toNat,
            item_id := none }
        let r := execute_switch env b action true
        let b1 :=
          { r.1 with
            phase := "WAITING_ACTIONS",
            forced_switch_battler_id := none,
            pending_ai_switch_index := none,
            pending_actions := r.1.pending_actions.filter
              (fun e => e.1 != battler_id) }
        .ok (b1, r.2)

/-- Write an updated battle back into the registry map. -/
def updateBattle (battles : List (String × BattleState)) (id : String)
    (b : BattleState) : List (String × BattleState) :=
  battles.map (fun e => if e.1 == id then (e.1, b) else e)

/-- `BattleEngine.force_switch` at the registry level
(`self.active_battles` is the insertion-ordered map `battles`): unknown
id is the "Battle not found" error; every error leaves the registry — and
each battle in it — unchanged. -/
def force_switch (env : Env) (battles : List (String × BattleState))
    (battle_id : String) (battler_id : Int) (switch_to_position : Int) :
    Except String (List String) × List (String × BattleState) :=
  match (battles.find? (fun e => e.1 == battle_id)).map (fun e => e.2) with
  | none => (.error "Battle not found", battles)
  | some b =>
    match force_switch_core env b battler_id switch_to_position with
    | .error e => (.error e, battles)
    | .ok r => (.ok r.2, updateBattle battles battle_id r.1)

/-- `BattleEngine.auto_switch_if_forced_ai`: perform the queued AI forced
switch after end-of-turn.  The source goes through
`self.force_switch(battle.battle_id, ...)`; for the battle being
processed that is exactly `force_switch_core`, and an error dict yields
`result.get('messages', [])` = no messages and no change. -/
def auto_switch_if_forced_ai (env : Env) (b : BattleState) :
    BattleState × List String :=
  if b.phase != "FORCED_SWITCH" || b.forced_switch_battler_id == none then
    (b, [])
  else
    let fid := b.forced_switch_battler_id.getD 0
    let battler := b.battlerOf (sideFor b fid)
    if !battler.is_ai then (b, [])
    else
      let idx :=
        match b.pending_ai_switch_index with
        | some i => some i
        | none =>
          let current_idx := battler.active_positions.head?
          (battler.party.enum.find? (fun e =>
            !(some e.1 == current_idx) && decide (0 < e.2.current_hp))).map
            (fun e => e.1)
      match idx with
      | none => (b, [])
      | some i =>
        match force_switch_core env b fid (i : Int) with
        | .error _ => (b, [])
        | .ok r => (r.1, r.2)

/-! ## End of turn (`BattleEngine._process_end_of_turn`) -/

/-- Active combatants of both sides, trainer side first, as `(side,
party index)` pairs — the iteration order of the source's loops. -/
def active_locs (b : BattleState) : List (Side × Nat) :=
  b.trainer.activeIndices.map (fun i => (Side.trainer, i)) ++
  b.opponent.activeIndices.map (fun i => (Side.opponent, i))

/-- Status-manager end-of-turn effects followed by held-item end-of-turn
healing, per active combatant. -/
def run_eot_status (env : Env) (b : BattleState) (locs : List (Side × Nat)) :
    BattleState × List String :=
  locs.foldl
    (fun acc loc =>
      let p := (acc.1.battlerOf loc.1).party.getD loc.2 default
      let s1 := if p.has_status_manager then env.status_end_of_turn p
                else (p, [])
      let s2 :=
        match env.items_db with
        | some idb => item_process_end_of_turn idb s1.1
        | none => (s1.1, [])
      (acc.1.setPoke loc.1 loc.2 s2.1, acc.2 ++ s1.2 ++ s2.2)) (b, [])

/-- Weather damage then weather healing per active combatant (ability
handler hooks; a falsy message is no message, modelled by `Option`). -/
def run_weather (env : Env) (w : String) (b : BattleState)
    (locs : List (Side × Nat)) : BattleState × List String :=
  locs.foldl
    (fun acc loc =>
      let p := (acc.1.battlerOf loc.1).party.getD loc.2 default
      let d := env.weather_damage p w
      let h := env.weather_heal d.1 w
      (acc.1.setPoke loc.1 loc.2 h.1, acc.2 ++ d.2.toList ++ h.2.toList))
    (b, [])

/-- `BattleEngine._process_end_of_turn`: nothing without the enhanced
systems; else status + item effects, weather effects with the timer
decrement and expiry, then the terrain timer. -/
def process_end_of_turn (env : Env) (b : BattleState) :
    BattleState × List String :=
  if !env.enhanced then (b, [])
  else
    let locs := active_locs b
    let r1 := run_eot_status env b locs
    let r2 :=
      match r1.1.weather with
      | none => (r1.1, ([] : List String))
      | some w =>
        let rw := run_weather env w r1.1 locs
        let bw := { rw.1 with weather_turns := rw.1.weather_turns - 1 }
        if bw.weather_turns ≤ 0 then
          ({ bw with weather := none }, rw.2 ++ ["The " ++ w ++ " subsided!"])
        else (bw, rw.2)
    let r3 :=
      match r2.1.terrain with
      | none => (r2.1, ([] : List String))
      | some t =>
        let bt := { r2.1 with terrain_turns := r2.1.terrain_turns - 1 }
        if bt.terrain_turns ≤ 0 then
          ({ bt with terrain := none }, ["The " ++ t ++ " terrain faded!"])
        else (bt, [])
    (r3.1, r1.2 ++ r2.2 ++ r3.2)

/-! ## Turn processing (`BattleEngine.process_turn`) -/

instance : Inhabited MoveSlot := ⟨{ move_id := "", pp := 0 }⟩

/-- `BattleEngine.generate_ai_action`: a uniformly random usable move
(`random.choice`, modelled as the floor of sample × length), or the
reserved `struggle` when all PP is spent. -/
def generate_ai_action (g : RNG) (b : BattleState) (battler_id : Int) :
    BattleAction × RNG :=
  let battler :=
    if b.trainer.battler_id == battler_id then b.trainer else b.opponent
  let active := battler.get_active_pokemon.headD default
  let usable := active.moves.filter (fun m => decide (0 < m.pp))
  if usable.isEmpty then
    ({ action_type := "move", battler_id := battler_id,
       move_id := some "struggle", target_position := some 0,
       switch_to_position := none, item_id := none }, g)
  else
    let (r, g') := draw g
    let idx := min (usable.length - 1) (ratFloor (r * (usable.length : Rat))).toNat
    let chosen := usable.getD idx default
    ({ action_type := "move", battler_id := battler_id,
       move_id := some chosen.move_id, target_position := some 0,
       switch_to_position := none, item_id := none }, g')

/-- `battle.pending_actions[str(battler_id)] = action` on the insertion
ordered dict. -/
def pending_set (pa : List (Int × BattleAction)) (id : Int)
    (a : BattleAction) : List (Int × BattleAction) :=
  if pa.any (fun e => e.1 == id) then
    pa.map (fun e => if e.1 == id then (e.1, a) else e)
  else pa ++ [(id, a)]

/-- The action loop of `process_turn`: break on `is_over` or
`wild_dazed`; skip a side with no conscious active combatant; skip a
non-switch action of the battler owing a forced switch; otherwise execute,
sending switch narration to the separate switch list and everything else
to `turn_log`.  Returns the battle, the manual switch messages and the
random stream. -/
def run_actions (env : Env) :
    RNG → BattleState → List BattleAction → BattleState × List String × RNG
  | g, b, [] => (b, [], g)
  | g, b, a :: rest =>
    if b.is_over || b.wild_dazed then (b, [], g)
    else
      let battler := b.battlerOf (sideFor b a.battler_id)
      let act := battler.get_active_pokemon
      if act.isEmpty || act.all (fun p => p.current_hp == 0) then
        run_actions env g b rest
      else if b.phase == "FORCED_SWITCH" &&
          b.forced_switch_battler_id == some battler.battler_id &&
          a.action_type != "switch" then
        run_actions env g b rest
      else
        let r := execute_action env g b a
        let b1 :=
          if a.action_type == "switch" then r.1
          else { r.1 with turn_log := r.1.turn_log ++ r.2.1 }
        let sw := if a.action_type == "switch" then r.2.1 else []
        let rr := run_actions env r.2.2 b1 rest
        (rr.1, sw ++ rr.2.1, rr.2.2)

/-- Result record of `process_turn` (the dict it returns; the redundant
`battle_over` key duplicates `is_over`). -/
structure TurnResult where
  turn_number : Nat
  messages : List String
  switch_messages : List String
  is_over : Bool
  winner : Option String
deriving Repr, DecidableEq

/-- `BattleEngine.process_turn`: synthesize AI actions, clear `turn_log`,
sort, run the loop, end-of-turn effects and the AI auto-switch (both
skipped when `wild_dazed`), terminal check, clear pending actions,
increment the turn counter. -/
def process_turn (env : Env) (g : RNG) (b : BattleState) :
    BattleState × TurnResult × RNG :=
  let s1 :=
    if b.trainer.is_ai &&
        !(b.pending_actions.any (fun e => e.1 == b.trainer.battler_id)) then
      let ga := generate_ai_action g b b.trainer.battler_id
      ({ b with pending_actions :=
          pending_set b.pending_actions b.trainer.battler_id ga.1 }, ga.2)
    else (b, g)
  let s2 :=
    if s1.1.opponent.is_ai &&
        !(s1.1.pending_actions.any (fun e => e.1 == s1.1.opponent.battler_id)) then
      let ga := generate_ai_action s1.2 s1.1 s1.1.opponent.battler_id
      ({ s1.1 with pending_actions :=
          pending_set s1.1.pending_actions s1.1.opponent.battler_id ga.1 },
       ga.2)
    else s1
  let b0 := { s2.1 with turn_log := [] }
  let actions := sort_actions env b0 (b0.pending_actions.map (fun e => e.2))
  let ra := run_actions env s2.2 b0 actions
  let post :=
    if ra.1.wild_dazed then (ra.1, ([] : List String), ([] : List String))
    else
      let e := process_end_of_turn env ra.1
      let a := auto_switch_if_forced_ai env e.1
      (a.1, e.2, a.2)
  let b1 := { post.1 with turn_log := post.1.turn_log ++ post.2.1 }
  let switch_messages := ra.2.1 ++ post.2.2
  let b2 := check_battle_end b1
  let b3 := { b2 with pending_actions := [], turn_number := b2.turn_number + 1 }
  (b3,
   { turn_number := b3.turn_number - 1, messages := b3.turn_log,
     switch_messages := switch_messages, is_over := b3.is_over,
     winner := b3.winner }, ra.2.2)

/-! ## Concrete fixtures

A small executable environment and battles used to instantiate the
theorems below at concrete inputs. -/

/-- A combatant with one `tackle` slot. -/
def samplePoke (name : String) (hp maxhp spd : Nat) : Pokemon :=
  { species_name := name, max_hp := maxhp, current_hp := hp, speed := spd,
    moves := [{ move_id := "tackle", pp := 10 }], types := ["normal"],
    ability := none, held_item := none, consumed_items := [],
    choice_locked_move := none, stat_stages := none,
    has_status_manager := false, volatile_statuses := [] }

/-- A concrete environment: one known move, no held-item manager, basic
calculator (`ENHANCED_SYSTEMS_AVAILABLE = False`, fixed 10 damage), a
permissive ruleset. -/
def sampleEnv : Env :=
  { moves_db := fun mid =>
      if mid == "tackle" then
        some { id := "tackle", name := "Tackle", type := "normal",
               category := "physical", priority := 0 }
      else none,
    items_db := none,
    type_chart := [("rock", [("normal", 1), ("fire", 1/2)])],
    enhanced := false,
    calc_damage := fun _ _ _ _ _ _ => (10, false, 1, []),
    calc_speed := fun p => p.speed,
    can_move := fun _ => (true, ""),
    can_apply_status := fun _ _ => (true, ""),
    apply_status := fun p _ => (p, true, "was badly poisoned!"),
    status_end_of_turn := fun p => (p, []),
    on_entry := fun _ => [],
    weather_damage := fun p _ => (p, none),
    weather_heal := fun p _ => (p, none),
    ruleset_allowed := fun _ _ => (true, "") }

def sampleBattler (id : Int) (name : String) (party : List Pokemon)
    (ai : Bool) : Battler :=
  { battler_id := id, battler_name := name, party := party,
    active_positions := [0], is_ai := ai, can_switch := true,
    can_use_items := true, can_flee := false }

/-- A registered `tackle` action aimed at slot 0. -/
def sampleMove (id : Int) : BattleAction :=
  { action_type := "move", battler_id := id, move_id := some "tackle",
    target_position := some 0, switch_to_position := none, item_id := none }

/-- A registered switch action to party slot 0. -/
def sampleSwitch (id : Int) : BattleAction :=
  { action_type := "switch", battler_id := id, move_id := none,
    target_position := none, switch_to_position := some 0, item_id := none }

/-- Trainer battle in `WAITING_ACTIONS`: a human trainer one hit away
from knocking out the human opponent's last combatant. -/
def trainerKillBattle : BattleState :=
  { battle_id := "b1", battle_type := .TRAINER, battle_format := .SINGLES,
    trainer := sampleBattler 1 "Ash" [samplePoke "A" 100 100 50] false,
    opponent := sampleBattler (-2) "NPC" [samplePoke "B" 5 100 5] false,
    turn_number := 1, phase := "WAITING_ACTIONS",
    forced_switch_battler_id := none, is_over := false, winner := none,
    fled := false, weather := none, weather_turns := 0, terrain := none,
    terrain_turns := 0, trainer_hazards := [], opponent_hazards := [],
    pending_actions := [(1, sampleMove 1), (-2, sampleMove (-2))],
    turn_log := [], pending_ai_switch_index := none, wild_dazed := false,
    ruleset := "standardnatdex" }

/-- Wild battle: the trainer's hit will reduce the wild combatant to 0
(the fixed fallback damage is 10 against 5 HP). -/
def wildBattle : BattleState :=
  { trainerKillBattle with
    battle_type := .WILD,
    opponent := sampleBattler (-1) "Wild" [samplePoke "W" 5 100 5] false }

instance : Inhabited BattleAction :=
  ⟨{ action_type := "", battler_id := 0, move_id := none,
     target_position := none, switch_to_position := none, item_id := none }⟩

/-- Trainer battle where neither side can faint this turn (both at 100
HP against the fixed 10 damage). -/
def calmBattle : BattleState :=
  { trainerKillBattle with
    opponent := sampleBattler (-2) "NPC" [samplePoke "B" 100 100 5] false }

/-- Two human sides, both registering a switch; the trainer side (speed
10) registered first, the opponent side (speed 20) second. -/
def twoSwitchBattle : BattleState :=
  { trainerKillBattle with
    trainer := sampleBattler 1 "SlowSide" [samplePoke "S" 50 100 10] false,
    opponent := sampleBattler (-2) "FastSide" [samplePoke "F" 50 100 20] false }

/-- Entry-hazard scenario of the spec: stealth rock plus two spikes
layers await a grounded neutral entrant with 100 max HP. -/
def hazardBattle : BattleState :=
  { trainerKillBattle with
    trainer := sampleBattler 1 "Ash" [samplePoke "E" 100 100 30] false,
    trainer_hazards := [("stealth_rock", 1), ("spikes", 2)] }

/-- Two toxic-spikes layers await a grounded entrant with a status
manager. -/
def toxBattle : BattleState :=
  { trainerKillBattle with
    trainer := sampleBattler 1 "Ash"
      [{ samplePoke "T" 50 50 30 with has_status_manager := true }] false,
    trainer_hazards := [("toxic_spikes", 2)] }

/-- Focus-survival item: `before_damage` trigger, `prevents_ko`,
full-HP requirement, one-time use. -/
def sashItem : ItemData :=
  { id := "focus_sash", name := "Focus Sash",
    trigger := some "before_damage", blocks_status_moves := false,
    locks_move := false, type := none, power_multiplier := none,
    stat := none, multiplier := none, prevents_ko := true,
    requires_full_hp := true, activation_chance := none,
    one_time_use := true, recoil_percent := none, heal_percent := none }

def sampleItemsDb : String → Option ItemData :=
  fun iid => if iid == "focus_sash" then some sashItem else none

/-- A combatant at full HP holding the focus item. -/
def sashPoke : Pokemon :=
  { samplePoke "S" 40 40 30 with held_item := some "focus_sash" }

/-- Battle stuck in a forced switch for the trainer, whose fainted
active waits to be replaced by the healthy slot 1. -/
def forcedBattle : BattleState :=
  { trainerKillBattle with
    phase := "FORCED_SWITCH", forced_switch_battler_id := some 1,
    trainer := sampleBattler 1 "Ash"
      [samplePoke "A" 0 100 50, samplePoke "C" 30 100 40] false }

/-- Doubles battle: two active slots per side. -/
def doublesBattle : BattleState :=
  { trainerKillBattle with
    battle_format := .DOUBLES,
    trainer := { sampleBattler 1 "Ash"
      [samplePoke "A" 50 100 50, samplePoke "B" 60 100 40,
       samplePoke "C" 70 100 30] false with active_positions := [0, 1] },
    opponent := { sampleBattler (-2) "NPC"
      [samplePoke "X" 50 100 20, samplePoke "Y" 60 100 10] false with
      active_positions := [0, 1] } }

/-- Doubles action used to instantiate C10: the trainer switches the
first active slot to party slot 2, with the (ignored for switches)
target field set to the opposing slot 1. -/
def c10Action : BattleAction :=
  { action_type := "switch", battler_id := 1, move_id := none,
    target_position := some 1, switch_to_position := some 2,
    item_id := none }

/-- The wild battle just after the daze flag is raised. -/
def dazedWildBattle : BattleState := { wildBattle with wild_dazed := true }


/-! ## Formalisations of claim statements that need a second definition

These definitions follow the words of the spec sentence under test, to
be compared against the definitions taken from the source. -/

/-- C6's stated stealth-rock formula: `⌈max_hp/8 · R⌉`, minimum 1 when
`R > 0` and 0 when `R = 0` (spec words, not the source). -/
def c6CeilDamage (maxhp : Nat) (r : Rat) : Nat :=
  if 0 < r then max 1 (ratCeil ((maxhp : Rat) / 8 * r)).toNat else 0

/-- C6 as stated: the engine's stealth-rock damage equals the ceiling
formula. -/
def c6ClaimProp : Prop :=
  ∀ (maxhp : Nat) (r : Rat), stealth_rock_damage maxhp r = c6CeilDamage maxhp r

/-- C3's stated sort key: the class, paired with the acting side's
effective speed for every action class (spec words, not the source). -/
def c3ClaimKey (env : Env) (b : BattleState) (a : BattleAction) :
    Int × Int :=
  let cls : Int :=
    if a.action_type == "switch" then 100
    else if a.action_type == "item" then 90
    else if a.action_type == "move" then
      (((env.moves_db (a.move_id.getD "")).map (fun m => m.priority)).getD 0)
    else 0
  let battler := b.battlerOf (sideFor b a.battler_id)
  (cls,
   (get_effective_speed env (battler.get_active_pokemon.headD default) : Int))

/-- C3 as stated: in any turn, action `i` resolves before action `j`
iff its (class, effective-speed) key is lexicographically greater, with
registration order breaking exact ties. -/
def c3ClaimProp : Prop :=
  ∀ (env : Env) (b : BattleState) (acts : List BattleAction) (i j : Nat),
    i < acts.length → j < acts.length → i ≠ j →
    ((sort_actions_indexed env b acts).indexOf (i, acts.getD i default) <
      (sort_actions_indexed env b acts).indexOf (j, acts.getD j default) ↔
     (keyGt (c3ClaimKey env b (acts.getD i default))
        (c3ClaimKey env b (acts.getD j default)) = true ∨
      (c3ClaimKey env b (acts.getD i default) =
        c3ClaimKey env b (acts.getD j default) ∧ i < j)))

/-- Boolean "exactly one of". -/
def exactly_one (l : List Bool) : Bool := l.count true == 1

/-- C4 as stated: after `process_turn` on a live battle, exactly one of
`is_over`, `FORCED_SWITCH`, `DAZED`, `WAITING_ACTIONS` holds. -/
def c4ClaimProp : Prop :=
  ∀ (env : Env) (g : RNG) (b : BattleState), b.is_over = false →
    exactly_one [((process_turn env g b).1).is_over,
      ((process_turn env g b).1).phase == "FORCED_SWITCH",
      ((process_turn env g b).1).phase == "DAZED",
      ((process_turn env g b).1).phase == "WAITING_ACTIONS"] = true

/-! ## Theorems -/

/-- A side is usable exactly when some party member has positive HP. -/
theorem has_usable_eq_true_iff (bt : Battler) :
    bt.has_usable_pokemon = true ↔ ∃ p ∈ bt.party, 0 < p.current_hp := by
  simp [Battler.has_usable_pokemon, List.any_eq_true]

/-- A side is unusable exactly when every party member is at 0 HP. -/
theorem has_usable_eq_false_iff (bt : Battler) :
    bt.has_usable_pokemon = false ↔ ∀ p ∈ bt.party, p.current_hp = 0 := by
  rw [← Bool.not_eq_true, has_usable_eq_true_iff]
  simp [Nat.pos_iff_ne_zero]

/-- C2: `_check_battle_end` sets `is_over` and assigns the winner exactly
when at least one side has no party member with positive HP — draw when
neither side has one, opponent when only the opponent side has one,
trainer when only the trainer side has one — and leaves the battle
entirely unchanged when both sides still have a usable combatant. -/
theorem c2_terminal_check (b : BattleState) :
    ((∀ p ∈ b.trainer.party, p.current_hp = 0) →
      (∀ p ∈ b.opponent.party, p.current_hp = 0) →
      (check_battle_end b).is_over = true ∧
      (check_battle_end b).winner = some "draw") ∧
    ((∀ p ∈ b.trainer.party, p.current_hp = 0) →
      (∃ p ∈ b.opponent.party, 0 < p.current_hp) →
      (check_battle_end b).is_over = true ∧
      (check_battle_end b).winner = some "opponent") ∧
    ((∃ p ∈ b.trainer.party, 0 < p.current_hp) →
      (∀ p ∈ b.opponent.party, p.current_hp = 0) →
      (check_battle_end b).is_over = true ∧
      (check_battle_end b).winner = some "trainer") ∧
    ((∃ p ∈ b.trainer.party, 0 < p.current_hp) →
      (∃ p ∈ b.opponent.party, 0 < p.current_hp) →
      check_battle_end b = b) := by
  refine ⟨fun h1 h2 => ?_, fun h1 h2 => ?_, fun h1 h2 => ?_, fun h1 h2 => ?_⟩
  · simp [check_battle_end, (has_usable_eq_false_iff _).2 h1,
      (has_usable_eq_false_iff _).2 h2]
  · simp [check_battle_end, (has_usable_eq_false_iff _).2 h1,
      (has_usable_eq_true_iff _).2 h2]
  · simp [check_battle_end, (has_usable_eq_true_iff _).2 h1,
      (has_usable_eq_false_iff _).2 h2]
  · simp [check_battle_end, (has_usable_eq_true_iff _).2 h1,
      (has_usable_eq_true_iff _).2 h2]

/-- Witness for C2: the trainer keeps a usable combatant while the
opponent side is wiped out, so the battle ends with winner `trainer`. -/
theorem c2_terminal_check_witness :
    (check_battle_end { trainerKillBattle with
      opponent := sampleBattler (-2) "NPC" [samplePoke "B" 0 100 5] false }).is_over
      = true ∧
    (check_battle_end { trainerKillBattle with
      opponent := sampleBattler (-2) "NPC" [samplePoke "B" 0 100 5] false }).winner
      = some "trainer" :=
  (c2_terminal_check _).2.2.1 (by decide) (by decide)

/-- The executable floor agrees with `Int.floor` on the rationals. -/
theorem ratFloor_eq_floor (q : Rat) : ratFloor q = ⌊q⌋ := Rat.floor_def.symm

/-- The executable ceiling agrees with `Int.ceil` on the rationals. -/
theorem ratCeil_eq_ceil (q : Rat) : ratCeil q = ⌈q⌉ := by
  rw [ratCeil, ratFloor_eq_floor, Int.floor_neg, neg_neg]

theorem hazard_sr_skip (env : Env) (hz : List (String × Nat))
    (types : List String) (p : Pokemon)
    (h : lookupH hz "stealth_rock" = none) :
    hazard_stealth_rock env hz types p = (p, []) := by
  simp [hazard_stealth_rock, h]

theorem hazard_sr_eval (env : Env) (hz : List (String × Nat))
    (types : List String) (p : Pokemon) (d : Nat)
    (h : (lookupH hz "stealth_rock").isSome = true)
    (hd : stealth_rock_damage p.max_hp (rock_effectiveness env.type_chart types) = d)
    (hdpos : 0 < d) :
    hazard_stealth_rock env hz types p =
      ({ p with current_hp := p.current_hp - d },
       [p.species_name ++ " is hurt by Stealth Rock! (-" ++ toString d ++
        " HP)"]) := by
  simp [hazard_stealth_rock, h, hd, hdpos]

theorem hazard_spikes_skip (hz : List (String × Nat)) (g : Bool)
    (p : Pokemon) (h : g = false ∨ lookupH hz "spikes" = none) :
    hazard_spikes hz g p = (p, []) := by
  rcases h with h | h <;> simp [hazard_spikes, h]

theorem hazard_spikes_eval2 (hz : List (String × Nat)) (p : Pokemon)
    (h : lookupH hz "spikes" = some 2) (hmax : p.max_hp = 100) :
    hazard_spikes hz true p =
      ({ p with current_hp := p.current_hp - 16 },
       [p.species_name ++ " is hurt by Spikes! (-" ++ toString 16 ++
        " HP)"]) := by
  simp [hazard_spikes, h, hmax]

theorem hazard_toxic_skip (env : Env) (b : BattleState) (side : Side)
    (hz : List (String × Nat)) (g : Bool) (types : List String)
    (p : Pokemon) (h : g = false ∨ lookupH hz "toxic_spikes" = none) :
    hazard_toxic env b side hz g types p = (b, p, []) := by
  rcases h with h | h <;> simp [hazard_toxic, h]

theorem hazard_sticky_skip (hz : List (String × Nat)) (g : Bool)
    (p : Pokemon) (h : g = false ∨ lookupH hz "sticky_web" = none) :
    hazard_sticky hz g p = (p, []) := by
  rcases h with h | h <;> simp [hazard_sticky, h]

theorem entry_sr_spikes2 (env : Env) (b : BattleState) (side : Side)
    (i : Nat) (p : Pokemon)
    (hhz : (match side with
            | Side.opponent => b.opponent_hazards
            | Side.trainer => b.trainer_hazards) =
           [("stealth_rock", 1), ("spikes", 2)])
    (hp : (b.battlerOf side).party.getD i default = p)
    (hg : grounded_check p = true)
    (heff : rock_effectiveness env.type_chart (p.types.map strLower) = 1)
    (hmax : p.max_hp = 100) (hcur : p.current_hp = 100) :
    apply_entry_hazards env b side i =
      (b.setPoke side i { p with current_hp := 72 },
       [p.species_name ++ " is hurt by Stealth Rock! (-" ++ toString 12 ++
        " HP)",
        p.species_name ++ " is hurt by Spikes! (-" ++ toString 16 ++
        " HP)"]) := by
  have hsd : stealth_rock_damage p.max_hp
      (rock_effectiveness env.type_chart (p.types.map strLower)) = 12 := by
    rw [heff, hmax]
    norm_num [stealth_rock_damage, ratFloor_eq_floor]
    simp
  have h1 := hazard_sr_eval env [("stealth_rock", 1), ("spikes", 2)]
    (p.types.map strLower) p 12 (by simp [lookupH]) hsd (by norm_num)
  have h2 : ∀ q : Pokemon, q.max_hp = 100 → hazard_spikes
      [("stealth_rock", 1), ("spikes", 2)] true q =
      ({ q with current_hp := q.current_hp - 16 },
       [q.species_name ++ " is hurt by Spikes! (-" ++ toString 16 ++
        " HP)"]) := fun q hq =>
    hazard_spikes_eval2 _ q (by simp [lookupH]) hq
  have h3 : ∀ q : Pokemon, hazard_toxic env b side
      [("stealth_rock", 1), ("spikes", 2)] true (p.types.map strLower) q =
      (b, q, []) := fun q =>
    hazard_toxic_skip env b side _ true _ q (Or.inr (by simp [lookupH]))
  have h4 : ∀ q : Pokemon, hazard_sticky
      [("stealth_rock", 1), ("spikes", 2)] true q = (q, []) := fun q =>
    hazard_sticky_skip _ true q (Or.inr (by simp [lookupH]))
  cases side <;>
  · simp only at hhz
    rw [apply_entry_hazards]
    simp only [hhz, hp, hg, List.isEmpty_cons, h1, h2, h3, h4, hmax]
    simp [hcur]

/-- C6 counterexample: at max_hp = 100 and a neutral rock matchup
(R = 1) the engine deals `max(1, int(max(1, 100 // 8) * 1)) = 12`, while
the claimed formula gives `ceil(100/8 * 1) = 13`. -/
theorem c6_counterexample : ¬ c6ClaimProp := by
  intro h
  have h1 := h 100 1
  have ha : stealth_rock_damage 100 1 = 12 := by
    norm_num [stealth_rock_damage, ratFloor_eq_floor]
    simp
  have hceil : ratCeil (((100 : Nat) : Rat) / 8 * 1) = 13 := by
    rw [ratCeil_eq_ceil, Int.ceil_eq_iff]
    constructor <;> norm_num
  have hb : c6CeilDamage 100 1 = 13 := by
    rw [c6CeilDamage, if_pos (by norm_num), hceil]
    decide
  rw [ha, hb] at h1
  exact absurd h1 (by decide)

/-- C6 amended: stealth-rock entry damage is the floor (not ceiling)
formula `max(1, floor(max(1, floor(max_hp/8)) * R))` when `R > 0` and
exactly 0 when `R = 0`; the minimum of 1 for positive `R` holds; and the
spec's concrete scenario stands: a grounded neutral entrant with 100 max
HP takes 12 stealth-rock plus 16 two-layer-spikes damage, 28 in total,
ending at exactly 72 HP with both hazards narrated. -/
theorem c6_hazard_damage :
    (∀ (maxhp : Nat) (r : Rat),
      stealth_rock_damage maxhp r =
        if 0 < r then max 1 ⌊(max 1 ⌊(maxhp : Rat) / 8⌋₊ : Rat) * r⌋₊
        else 0) ∧
    (∀ (maxhp : Nat) (r : Rat), r = 0 → stealth_rock_damage maxhp r = 0) ∧
    (∀ (maxhp : Nat) (r : Rat), 0 < r → 1 ≤ stealth_rock_damage maxhp r) ∧
    (apply_entry_hazards sampleEnv hazardBattle .trainer 0 =
      (hazardBattle.setPoke .trainer 0
        { samplePoke "E" 100 100 30 with current_hp := 72 },
       ["E is hurt by Stealth Rock! (-12 HP)",
        "E is hurt by Spikes! (-16 HP)"])) := by
  refine ⟨?_, ?_, ?_, ?_⟩
  · intro maxhp r
    simp only [stealth_rock_damage, ratFloor_eq_floor, Int.floor_toNat,
      Nat.floor_div_ofNat, Nat.floor_natCast, Nat.cast_max, Nat.cast_one]
  · intro maxhp r hr
    simp [stealth_rock_damage, hr]
  · intro maxhp r hr
    simp only [stealth_rock_damage, if_pos hr]
    exact Nat.le_max_left 1 _
  · have h := entry_sr_spikes2 sampleEnv hazardBattle .trainer 0
      (samplePoke "E" 100 100 30) rfl rfl (by decide)
      (by rw [show (samplePoke "E" 100 100 30).types.map strLower =
                ["normal"] from rfl]
          simp [rock_effectiveness, sampleEnv]) rfl rfl
    rw [h]
    decide

/-- Witness for C6 amended: zero effectiveness deals zero, positive
effectiveness deals at least 1. -/
theorem c6_hazard_damage_witness :
    stealth_rock_damage 100 0 = 0 ∧ 1 ≤ stealth_rock_damage 100 (1/2) :=
  ⟨c6_hazard_damage.2.1 100 0 rfl,
   c6_hazard_damage.2.2.1 100 (1/2) (by norm_num)⟩

theorem set_self_eq {α : Type} (l : List α) (i : Nat) (h : i < l.length) :
    l.set i l[i] = l := by
  apply List.ext_getElem
  · simp
  · intro n h1 h2
    rw [List.getElem_set]
    split
    case isTrue he => subst he; rfl
    case isFalse => rfl

theorem set_getD_self {α : Type} [Inhabited α] (l : List α) (i : Nat)
    (h : i < l.length) : l.set i (l.getD i default) = l := by
  rw [List.getD_eq_getElem?_getD, List.getElem?_eq_getElem h, Option.getD_some]
  exact set_self_eq l i h

theorem setPoke_self (b : BattleState) (side : Side) (i : Nat)
    (h : i < (b.battlerOf side).party.length) :
    b.setPoke side i ((b.battlerOf side).party.getD i default) = b := by
  cases side <;>
  · simp only [BattleState.battlerOf] at h
    simp only [BattleState.setPoke, BattleState.setBattler,
      BattleState.battlerOf, Battler.setPoke, set_getD_self _ _ h]

theorem hazard_toxic_poison (env : Env) (b : BattleState) (side : Side)
    (hz : List (String × Nat)) (types : List String) (p : Pokemon)
    (h : (lookupH hz "toxic_spikes").isSome = true)
    (hpoison : types.contains "poison" = true) :
    hazard_toxic env b side hz true types p =
      ((match side with
        | Side.opponent =>
          { b with opponent_hazards := popH b.opponent_hazards "toxic_spikes" }
        | Side.trainer =>
          { b with trainer_hazards := popH b.trainer_hazards "toxic_spikes" }),
       p, [p.species_name ++ " absorbed the Toxic Spikes!"]) := by
  simp at hpoison
  cases side <;> simp [hazard_toxic, h, hpoison]

theorem hazard_toxic_steel (env : Env) (b : BattleState) (side : Side)
    (hz : List (String × Nat)) (types : List String) (p : Pokemon)
    (h : (lookupH hz "toxic_spikes").isSome = true)
    (hpoison : types.contains "poison" = false)
    (hsteel : types.contains "steel" = true) :
    hazard_toxic env b side hz true types p = (b, p, []) := by
  simp at hpoison hsteel
  simp [hazard_toxic, h, hpoison, hsteel]

theorem hazard_toxic_status (env : Env) (b : BattleState) (side : Side)
    (hz : List (String × Nat)) (types : List String) (p : Pokemon) (L : Nat)
    (h : lookupH hz "toxic_spikes" = some L)
    (hpoison : types.contains "poison" = false)
    (hsteel : types.contains "steel" = false)
    (hsm : p.has_status_manager = true) :
    hazard_toxic env b side hz true types p =
      (if (env.can_apply_status p (if 2 ≤ min 2 L then "tox" else "psn")).1 then
        (if (env.apply_status p (if 2 ≤ min 2 L then "tox" else "psn")).2.1 &&
            (env.apply_status p (if 2 ≤ min 2 L then "tox" else "psn")).2.2 != ""
         then (b, (env.apply_status p (if 2 ≤ min 2 L then "tox" else "psn")).1,
           [p.species_name ++ " " ++
            (env.apply_status p (if 2 ≤ min 2 L then "tox" else "psn")).2.2])
         else (b, (env.apply_status p (if 2 ≤ min 2 L then "tox" else "psn")).1,
           []))
      else (b, p, [])) := by
  simp at hpoison hsteel
  simp only [hazard_toxic, h, Option.isSome_some, Option.getD_some]
  simp [hpoison, hsteel, hsm]

theorem hazard_toxic_no_sm (env : Env) (b : BattleState) (side : Side)
    (hz : List (String × Nat)) (types : List String) (p : Pokemon)
    (hpoison : types.contains "poison" = false)
    (hsteel : types.contains "steel" = false)
    (hsm : p.has_status_manager = false) :
    hazard_toxic env b side hz true types p = (b, p, []) := by
  simp at hpoison hsteel
  simp [hazard_toxic, hpoison, hsteel, hsm]

theorem entry_toxic_only (env : Env) (b : BattleState) (side : Side)
    (i : Nat) (p : Pokemon) (L : Nat)
    (hhz : (match side with
            | Side.opponent => b.opponent_hazards
            | Side.trainer => b.trainer_hazards) = [("toxic_spikes", L)])
    (hp : (b.battlerOf side).party.getD i default = p) :
    apply_entry_hazards env b side i =
      ((hazard_toxic env b side [("toxic_spikes", L)] (grounded_check p)
          (p.types.map strLower) p).1.setPoke side i
        (hazard_toxic env b side [("toxic_spikes", L)] (grounded_check p)
          (p.types.map strLower) p).2.1,
       (hazard_toxic env b side [("toxic_spikes", L)] (grounded_check p)
          (p.types.map strLower) p).2.2) := by
  cases side <;>
  · simp only at hhz
    rw [apply_entry_hazards]
    simp only [hhz, hp, List.isEmpty_cons,
      hazard_sr_skip env [("toxic_spikes", L)] (p.types.map strLower) p
        (by simp [lookupH]),
      hazard_spikes_skip [("toxic_spikes", L)] (grounded_check p) p
        (Or.inr (by simp [lookupH]))]
    simp only [hazard_sticky_skip [("toxic_spikes", L)] (grounded_check p) _
        (Or.inr (by simp [lookupH]))]
    simp

/-- C8: toxic spikes on entry affect only grounded combatants: a
non-grounded entrant is untouched and clears nothing; a grounded
poison-type absorbs the hazard, clearing every toxic-spikes layer from
that side's map; a grounded steel-type is unaffected with no clearing;
any other grounded entrant receives `psn` for one layer or `tox` for two
or more, applied exactly when the status manager's can-apply gate
allows it. -/
theorem c8_toxic_spikes (env : Env) (b : BattleState) (side : Side)
    (i : Nat) (p : Pokemon) (L : Nat)
    (hhz : (match side with
            | Side.opponent => b.opponent_hazards
            | Side.trainer => b.trainer_hazards) = [("toxic_spikes", L)])
    (hp : (b.battlerOf side).party.getD i default = p)
    (hlen : i < (b.battlerOf side).party.length) :
    (grounded_check p = false → apply_entry_hazards env b side i = (b, [])) ∧
    (grounded_check p = true →
      (p.types.map strLower).contains "poison" = true →
      apply_entry_hazards env b side i =
        ((match side with
          | Side.opponent => { b with opponent_hazards := [] }
          | Side.trainer => { b with trainer_hazards := [] }),
         [p.species_name ++ " absorbed the Toxic Spikes!"])) ∧
    (grounded_check p = true →
      (p.types.map strLower).contains "poison" = false →
      (p.types.map strLower).contains "steel" = true →
      apply_entry_hazards env b side i = (b, [])) ∧
    (grounded_check p = true →
      (p.types.map strLower).contains "poison" = false →
      (p.types.map strLower).contains "steel" = false →
      p.has_status_manager = true →
      ((env.can_apply_status p (if 2 ≤ L then "tox" else "psn")).1 = false →
        apply_entry_hazards env b side i = (b, [])) ∧
      ((env.can_apply_status p (if 2 ≤ L then "tox" else "psn")).1 = true →
        apply_entry_hazards env b side i =
          (b.setPoke side i
            (env.apply_status p (if 2 ≤ L then "tox" else "psn")).1,
           if (env.apply_status p (if 2 ≤ L then "tox" else "psn")).2.1 &&
              (env.apply_status p (if 2 ≤ L then "tox" else "psn")).2.2 != ""
           then [p.species_name ++ " " ++
             (env.apply_status p (if 2 ≤ L then "tox" else "psn")).2.2]
           else []))) := by
  have hmin : (if 2 ≤ min 2 L then "tox" else "psn") =
      (if 2 ≤ L then "tox" else "psn") := by
    rcases Nat.lt_or_ge L 2 with h2 | h2
    · rw [if_neg (by omega), if_neg (by omega)]
    · rw [if_pos (by omega), if_pos h2]
  have hbase := entry_toxic_only env b side i p L hhz hp
  have hself : b.setPoke side i p = b := by
    rw [← hp]; exact setPoke_self b side i hlen
  refine ⟨?_, ?_, ?_, ?_⟩
  · intro hg
    rw [hbase, hg,
      hazard_toxic_skip env b side [("toxic_spikes", L)] false
        (p.types.map strLower) p (Or.inl rfl)]
    simp [hself]
  · intro hg hpoison
    rw [hbase, hg,
      hazard_toxic_poison env b side [("toxic_spikes", L)]
        (p.types.map strLower) p (by simp [lookupH]) hpoison]
    cases side
    case trainer =>
      simp only at hhz
      have hself' : ({ b with trainer_hazards := [] } : BattleState).setPoke
          Side.trainer i p = { b with trainer_hazards := [] } := by
        rw [show p = (({ b with trainer_hazards := [] } :
              BattleState).battlerOf Side.trainer).party.getD i default from
            hp.symm]
        exact setPoke_self _ _ _ hlen
      simp [hhz, popH, hself']
    case opponent =>
      simp only at hhz
      have hself' : ({ b with opponent_hazards := [] } : BattleState).setPoke
          Side.opponent i p = { b with opponent_hazards := [] } := by
        rw [show p = (({ b with opponent_hazards := [] } :
              BattleState).battlerOf Side.opponent).party.getD i default from
            hp.symm]
        exact setPoke_self _ _ _ hlen
      simp [hhz, popH, hself']
  · intro hg hpoison hsteel
    rw [hbase, hg,
      hazard_toxic_steel env b side [("toxic_spikes", L)]
        (p.types.map strLower) p (by simp [lookupH]) hpoison hsteel]
    simp [hself]
  · intro hg hpoison hsteel hsm
    have hstat := hazard_toxic_status env b side [("toxic_spikes", L)]
      (p.types.map strLower) p L (by simp [lookupH]) hpoison hsteel hsm
    rw [hmin] at hstat
    constructor
    · intro hgate
      rw [hbase, hg, hstat, if_neg (by simp [hgate])]
      simp [hself]
    · intro hgate
      rw [hbase, hg, hstat, if_pos (by simp [hgate])]
      split <;> split <;> simp

/-- Witness for C8: two toxic-spikes layers poison a grounded
normal-type entrant with a status manager through the can-apply gate. -/
theorem c8_toxic_spikes_witness :
    apply_entry_hazards sampleEnv toxBattle .trainer 0 =
      (toxBattle.setPoke .trainer 0
        { samplePoke "T" 50 50 30 with has_status_manager := true },
       ["T was badly poisoned!"]) := by
  have h := ((c8_toxic_spikes sampleEnv toxBattle .trainer 0
      { samplePoke "T" 50 50 30 with has_status_manager := true } 2
      rfl rfl (by decide)).2.2.2 rfl (by decide) (by decide) rfl).2 rfl
  rw [h]
  decide


/-- C7: when incoming damage would KO (damage at or above current HP),
the defender holds an unconsumed focus item (`prevents_ko`,
`requires_full_hp` or an `activation_chance`, with a `before_damage`
trigger), its HP is above 1, a `requires_full_hp` item sees full HP, and
the activation roll (when any) succeeds, `_try_focus_items` caps the
damage at current HP − 1 — leaving exactly 1 HP — emits the hang-on
message, and a `one_time_use` item is marked consumed and from then on
invisible to every held-item lookup for this combatant. -/
theorem c7_focus_items (idb : String → Option ItemData) (g : RNG)
    (p : Pokemon) (damage : Nat) (iid : String) (item : ItemData)
    (hhold : p.held_item = some iid)
    (hunconsumed : p.consumed_items.contains iid = false)
    (hitem : idb iid = some item)
    (hid : item.id = iid)
    (htrig : item.trigger = none ∨ item.trigger = some "before_damage")
    (hqual : item.prevents_ko = true ∨ item.requires_full_hp = true ∨
      (item.activation_chance).isSome = true)
    (hdmg : p.current_hp ≤ damage)
    (hhp : 1 < p.current_hp)
    (hfull : item.requires_full_hp = true → p.current_hp = p.max_hp)
    (hroll : ∀ a, item.activation_chance = some a → (draw g).1 ≤ a) :
    (try_focus_items idb g p damage).1 = p.current_hp - 1 ∧
    p.current_hp - (try_focus_items idb g p damage).1 = 1 ∧
    ((try_focus_items idb g p damage).2.1).isSome = true ∧
    (item.one_time_use = true →
      (try_focus_items idb g p damage).2.2.1 = consume p iid ∧
      get_item idb ((try_focus_items idb g p damage).2.2.1) = none) ∧
    (item.one_time_use = false →
      (try_focus_items idb g p damage).2.2.1 = p) := by
  have hmem : iid ∉ p.consumed_items := by simpa using hunconsumed
  have hgi : get_item idb p = some item := by
    rw [get_item, hhold]
    simp [is_consumed, hmem, hitem]
  have e : try_focus_items idb g p damage =
      (p.current_hp - 1,
       some (p.species_name ++ " hung on using its " ++ item.name ++ "!"),
       (if item.one_time_use then consume p item.id else p),
       (match item.activation_chance with
        | some _ => (draw g).2
        | none => g)) := by
    rw [try_focus_items]
    rw [if_neg (by simp; omega)]
    rw [hgi]
    simp only
    rw [if_neg (by rcases htrig with h | h <;> simp [h])]
    rw [if_neg (by rcases hqual with h | h | h <;> simp [h])]
    rw [if_neg (by
      intro hc
      rcases Bool.and_eq_true_iff.1 hc with ⟨h1, h2⟩
      have := hfull h1
      simp at h2
      omega)]
    cases hact : item.activation_chance with
    | none =>
      simp only [hact]
      rw [if_neg (by simp)]
      rw [if_neg (by omega)]
    | some a =>
      simp only [hact]
      rw [if_neg (by simp; exact hroll a hact)]
      rw [if_neg (by omega)]
  rw [e]
  refine ⟨rfl, by omega, rfl, fun h1 => ?_, fun h0 => by simp [h0]⟩
  constructor
  · simp [h1, hid]
  · simp [h1, hid, get_item, hhold, consume, is_consumed, hmem]

/-- Witness for C7: the full-HP sash holder survives a 100-damage hit
at 39 damage (1 HP left) and the consumed sash is gone from lookups. -/
theorem c7_focus_items_witness :
    (try_focus_items sampleItemsDb [] sashPoke 100).1 = 39 ∧
    get_item sampleItemsDb ((try_focus_items sampleItemsDb [] sashPoke
      100).2.2.1) = none := by
  have h := c7_focus_items sampleItemsDb [] sashPoke 100 "focus_sash"
    sashItem rfl (by decide) rfl rfl (Or.inr rfl) (Or.inl rfl)
    (by decide) (by decide) (fun _ => rfl)
    (fun a ha => by simp [sashItem] at ha)
  exact ⟨h.1, (h.2.2.2.1 rfl).2⟩

/-- C9: `force_switch` is atomic on error — for an unknown battle id, a
phase other than FORCED_SWITCH, a battler other than the designated
forced-switch battler, a target slot out of range, or a fainted target,
it returns an error and the registry (hence every battle state in it) is
unchanged. -/
theorem c9_force_switch_atomic (env : Env)
    (battles : List (String × BattleState)) (battle_id : String)
    (battler_id : Int) (slot : Int)
    (herr : ((battles.find? (fun e => e.1 == battle_id)).map
        (fun e => e.2) = none) ∨
      (∃ b, (battles.find? (fun e => e.1 == battle_id)).map
          (fun e => e.2) = some b ∧
        (b.phase ≠ "FORCED_SWITCH" ∨
         b.forced_switch_battler_id ≠ some battler_id ∨
         slot < 0 ∨
         ((b.battlerOf (sideFor b battler_id)).party.length : Int) ≤ slot ∨
         ((b.battlerOf (sideFor b battler_id)).party.getD slot.toNat
           default).current_hp = 0))) :
    (∃ e, (force_switch env battles battle_id battler_id slot).1 =
      Except.error e) ∧
    (force_switch env battles battle_id battler_id slot).2 = battles := by
  rcases herr with hnone | ⟨b, hb, hc⟩
  · rw [force_switch, hnone]
    exact ⟨⟨"Battle not found", rfl⟩, rfl⟩
  · rw [force_switch, hb]
    simp only
    rw [force_switch_core]
    by_cases h1 : (b.phase != "FORCED_SWITCH" ||
        b.forced_switch_battler_id != some battler_id) = true
    · rw [if_pos h1]
      exact ⟨⟨_, rfl⟩, rfl⟩
    · rw [if_neg h1]
      simp only [Bool.or_eq_true, bne_iff_ne, not_or, not_ne_iff] at h1
      by_cases h2 : (decide (slot < 0) ||
          decide (((b.battlerOf (sideFor b battler_id)).party.length : Int)
            ≤ slot)) = true
      · rw [if_pos h2]
        exact ⟨⟨_, rfl⟩, rfl⟩
      · rw [if_neg h2]
        simp only [Bool.or_eq_true, decide_eq_true_eq, not_or, not_lt] at h2
        by_cases h3 : (((b.battlerOf (sideFor b battler_id)).party.getD
            slot.toNat default).current_hp == 0) = true
        · rw [if_pos h3]
          exact ⟨⟨_, rfl⟩, rfl⟩
        · exfalso
          simp only [beq_iff_eq] at h3
          rcases hc with h | h | h | h | h
          · exact h h1.1
          · exact h h1.2
          · omega
          · omega
          · exact h3 h

/-- Witness for C9: forcing a switch into the fainted slot 0 errors and
leaves the registry untouched. -/
theorem c9_force_switch_atomic_witness :
    (∃ e, (force_switch sampleEnv [("b1", forcedBattle)] "b1" 1 0).1 =
      Except.error e) ∧
    (force_switch sampleEnv [("b1", forcedBattle)] "b1" 1 0).2 =
      [("b1", forcedBattle)] := by
  apply c9_force_switch_atomic
  right
  exact ⟨forcedBattle, by decide,
    Or.inr (Or.inr (Or.inr (Or.inr (by decide))))⟩

theorem other_ne (s : Side) : s.other ≠ s := by
  cases s <;> simp [Side.other]

theorem battlerOf_setPoke_same (b : BattleState) (s : Side) (i : Nat)
    (p : Pokemon) :
    (b.setPoke s i p).battlerOf s = (b.battlerOf s).setPoke i p := by
  cases s <;> rfl

theorem battlerOf_setPoke_other (b : BattleState) (s t : Side) (i : Nat)
    (p : Pokemon) (h : t ≠ s) :
    (b.setPoke t i p).battlerOf s = b.battlerOf s := by
  cases s <;> cases t <;> first | rfl | exact absurd rfl h

theorem check_battle_end_battlerOf (b : BattleState) (s : Side) :
    (check_battle_end b).battlerOf s = b.battlerOf s := by
  simp only [check_battle_end]
  split
  · cases s <;> rfl
  split
  · cases s <;> rfl
  split
  · cases s <;> rfl
  · rfl

theorem getD_set_self {α : Type} [Inhabited α] (l : List α) (i : Nat)
    (a : α) (h : i < l.length) :
    (l.set i a).getD i default = a := by
  rw [List.getD_eq_getElem?_getD,
    List.getElem?_eq_getElem (by simpa using h)]
  simp

theorem register_move_use_moves (idb : String → Option ItemData)
    (p : Pokemon) (md : MoveData) :
    (register_move_use idb p md).moves = p.moves := by
  rw [register_move_use]
  cases get_item idb p
  · rfl
  · simp only
    split <;> rfl

theorem apply_after_damage_moves (idb : String → Option ItemData)
    (p : Pokemon) (md : MoveData) (d : Nat) :
    ((apply_after_damage idb p md d).1).moves = p.moves := by
  rw [apply_after_damage]
  cases get_item idb p
  · rfl
  · simp only
    split
    · exact register_move_use_moves idb p md
    · split
      · simp [register_move_use_moves idb p md]
      · exact register_move_use_moves idb p md

theorem execute_move_faint_battlerOf (b : BattleState) (ds : Side)
    (di : Nat) (msgs : List String) (s : Side) (h : s ≠ ds) :
    ((execute_move_faint b ds di msgs).1).battlerOf s = b.battlerOf s := by
  simp only [execute_move_faint]
  split
  · have e : ({ b.setPoke ds di
        { (b.battlerOf ds).party.getD di default with current_hp := 1 } with
        wild_dazed := true, phase := "DAZED" } : BattleState).battlerOf s =
        (b.setPoke ds di
          { (b.battlerOf ds).party.getD di default with
            current_hp := 1 }).battlerOf s := by
      cases s <;> rfl
    rw [e, battlerOf_setPoke_other _ _ _ _ _ (fun hh => h hh.symm)]
  · split
    · split
      · split
        · cases s <;> rfl
        · exact check_battle_end_battlerOf b s
      · rfl
    · split
      · split
        · split
          · cases s <;> rfl
          · rfl
        · exact check_battle_end_battlerOf b s
      · rfl

theorem execute_move_gates (env : Env) (g : RNG) (b : BattleState)
    (action : BattleAction) (A : Pokemon) (md : MoveData)
    (hA : (b.battlerOf (move_attacker_loc b action).1).party.getD
      (move_attacker_loc b action).2 default = A)
    (hgate : (env.enhanced && A.has_status_manager &&
      !(env.can_move A).1) = false)
    (hmd : env.moves_db (action.move_id.getD "") = some md)
    (hres : ∀ idb, env.items_db = some idb →
      check_move_restrictions idb A md = none)
    (hrul : (env.ruleset_allowed (action.move_id.getD "") b.ruleset).1 =
      true) :
    execute_move env g b action = execute_move_core env g b action A md := by
  cases hdb : env.items_db with
  | none =>
    simp only [execute_move, hA, hgate, hmd, hdb, hrul]
    simp
  | some idb =>
    simp only [execute_move, hA, hgate, hmd, hdb, hres idb hdb, hrul]
    simp

theorem deductPP_length (ms : List MoveSlot) (mid : String) :
    (deductPP ms mid).length = ms.length := by
  induction ms with
  | nil => rfl
  | cons m rest ih =>
    rw [deductPP]
    split <;> simp [ih]

theorem deductPP_spec (ms : List MoveSlot) (mid : String) (j : Nat)
    (hj : j < ms.length) :
    (j ≠ ms.findIdx (fun m => m.move_id == mid) →
      (deductPP ms mid).getD j default = ms.getD j default) ∧
    (j = ms.findIdx (fun m => m.move_id == mid) →
      (deductPP ms mid).getD j default =
        { ms.getD j default with pp := (ms.getD j default).pp - 1 }) := by
  induction ms generalizing j with
  | nil => simp at hj
  | cons m rest ih =>
    rw [deductPP, List.findIdx_cons]
    cases hm : (m.move_id == mid) with
    | true =>
      simp only [hm, cond_true, if_true]
      cases j with
      | zero => exact ⟨fun h => absurd rfl h, fun _ => by simp⟩
      | succ n =>
        exact ⟨fun _ => rfl, fun h => by omega⟩
    | false =>
      simp only [hm, cond_false, Bool.false_eq_true, if_false]
      cases j with
      | zero => exact ⟨fun _ => rfl, fun h => by omega⟩
      | succ n =>
        have hn : n < rest.length := by simpa using hj
        refine ⟨fun hne => ?_, fun heq => ?_⟩
        · simp only [List.getD_cons_succ]
          exact (ih n hn).1 (by omega)
        · simp only [List.getD_cons_succ]
          exact (ih n hn).2 (by omega)

theorem move_loc_sides (b : BattleState) (action : BattleAction) :
    (move_defender_loc b action).1 = ((move_attacker_loc b action).1).other :=
  rfl

theorem execute_move_core_attacker (env : Env) (g : RNG) (b : BattleState)
    (action : BattleAction) (A : Pokemon) (md : MoveData)
    (hAi : (move_attacker_loc b action).2 <
      (b.battlerOf (move_attacker_loc b action).1).party.length) :
    (((execute_move_core env g b action A md).1.battlerOf
        (move_attacker_loc b action).1).party.getD
        (move_attacker_loc b action).2 default).moves =
      deductPP A.moves (action.move_id.getD "") := by
  have hside : (move_defender_loc b action).1 ≠ (move_attacker_loc b action).1 := by
    rw [move_loc_sides]; exact other_ne _
  simp only [execute_move_core]
  generalize move_damage_pipeline env g b _ _ _ _ = P
  obtain ⟨dmg, eff, crit, msgs, D2, g2⟩ := P
  cases hdb : env.items_db with
  | none =>
    simp only [hdb]
    split <;> split <;>
    · first
      | (rw [execute_move_faint_battlerOf _ _ _ _ _ hside.symm,
            battlerOf_setPoke_other _ _ _ _ _ hside,
            battlerOf_setPoke_same, Battler.setPoke]
         simp only [getD_set_self _ _ _ (by simpa using hAi)])
      | (rw [battlerOf_setPoke_other _ _ _ _ _ hside,
            battlerOf_setPoke_same, Battler.setPoke]
         simp only [getD_set_self _ _ _ (by simpa using hAi)])
  | some idb =>
    simp only [hdb]
    split <;> split <;>
    · first
      | (rw [execute_move_faint_battlerOf _ _ _ _ _ hside.symm,
            battlerOf_setPoke_other _ _ _ _ _ hside,
            battlerOf_setPoke_same, Battler.setPoke]
         simp only [getD_set_self _ _ _ (by simpa using hAi)]
         rw [apply_after_damage_moves])
      | (rw [battlerOf_setPoke_other _ _ _ _ _ hside,
            battlerOf_setPoke_same, Battler.setPoke]
         simp only [getD_set_self _ _ _ (by simpa using hAi)]
         rw [apply_after_damage_moves])

/-- C5: per attempted move, `_execute_move` deducts PP exactly through
`deductPP` on the attacker's move list when the status gate, move
lookup, held-item restriction and ruleset checks all pass; it leaves
the whole battle untouched when the status manager prevents acting,
when the move id is unknown, when the held-item restriction (including
the choice lock) refuses, or when the ruleset bans the move.
`deductPP` keeps the list length, decrements the first matching slot by
exactly one (`Nat` subtraction, so a 0-PP slot stays at 0) and leaves
every other slot unchanged. -/
theorem c5_pp_deduction (env : Env) (g : RNG) (b : BattleState)
    (action : BattleAction) (A : Pokemon)
    (hA : (b.battlerOf (move_attacker_loc b action).1).party.getD
      (move_attacker_loc b action).2 default = A)
    (hAi : (move_attacker_loc b action).2 <
      (b.battlerOf (move_attacker_loc b action).1).party.length) :
    (∀ md, (env.enhanced && A.has_status_manager && !(env.can_move A).1) =
        false →
      env.moves_db (action.move_id.getD "") = some md →
      (∀ idb, env.items_db = some idb →
        check_move_restrictions idb A md = none) →
      (env.ruleset_allowed (action.move_id.getD "") b.ruleset).1 = true →
      (((execute_move env g b action).1.battlerOf
          (move_attacker_loc b action).1).party.getD
          (move_attacker_loc b action).2 default).moves =
        deductPP A.moves (action.move_id.getD "")) ∧
    ((env.enhanced && A.has_status_manager && !(env.can_move A).1) = true →
      (execute_move env g b action).1 = b) ∧
    (env.moves_db (action.move_id.getD "") = none →
      (execute_move env g b action).1 = b) ∧
    (∀ md idb r, env.moves_db (action.move_id.getD "") = some md →
      (env.enhanced && A.has_status_manager && !(env.can_move A).1) = false →
      env.items_db = some idb →
      check_move_restrictions idb A md = some r →
      (execute_move env g b action).1 = b) ∧
    (∀ md, env.moves_db (action.move_id.getD "") = some md →
      (env.enhanced && A.has_status_manager && !(env.can_move A).1) = false →
      (env.ruleset_allowed (action.move_id.getD "") b.ruleset).1 = false →
      (execute_move env g b action).1 = b) ∧
    (∀ (ms : List MoveSlot) (s : String),
      (deductPP ms s).length = ms.length ∧
      ∀ j, j < ms.length →
        (j ≠ ms.findIdx (fun m => m.move_id == s) →
          (deductPP ms s).getD j default = ms.getD j default) ∧
        (j = ms.findIdx (fun m => m.move_id == s) →
          (deductPP ms s).getD j default =
            { ms.getD j default with pp := (ms.getD j default).pp - 1 })) := by
  refine ⟨?_, ?_, ?_, ?_, ?_, ?_⟩
  · intro md hg hmd hres hrul
    rw [execute_move_gates env g b action A md hA hg hmd hres hrul]
    exact execute_move_core_attacker env g b action A md hAi
  · intro hg
    simp only [execute_move, hA, hg]
    simp
  · intro hmd
    simp only [execute_move, hA, hmd]
    split <;> rfl
  · intro md idb r hmd hg hdb hres
    simp only [execute_move, hA, hg, hmd, hdb, hres]
    simp
  · intro md hmd hg hrul
    cases hdb : env.items_db with
    | none =>
      simp only [execute_move, hA, hg, hmd, hdb, hrul]
      simp
    | some idb =>
      simp only [execute_move, hA, hg, hmd, hdb, hrul, Bool.false_eq_true,
        if_false, Bool.not_false, if_true]
      split <;> rfl
  · intro ms str
    exact ⟨deductPP_length ms str, fun j hj => deductPP_spec ms str j hj⟩

/-- Witness for C5: a passing tackle brings its slot from 10 to 9 PP. -/
theorem c5_pp_deduction_witness :
    (((execute_move sampleEnv [] trainerKillBattle (sampleMove 1)).1.battlerOf
        (move_attacker_loc trainerKillBattle (sampleMove 1)).1).party.getD
        (move_attacker_loc trainerKillBattle (sampleMove 1)).2 default).moves =
      [{ move_id := "tackle", pp := 9 }] := by
  have h := (c5_pp_deduction sampleEnv [] trainerKillBattle (sampleMove 1)
      (samplePoke "A" 100 100 50) rfl (by decide)).1
      { id := "tackle", name := "Tackle", type := "normal",
        category := "physical", priority := 0 }
      rfl rfl (fun idb hdb => by simp [sampleEnv] at hdb) rfl
  rw [h]
  decide

theorem setPoke_battlerOf_active (b : BattleState) (t : Side) (i : Nat)
    (p : Pokemon) (s : Side) :
    ((b.setPoke t i p).battlerOf s).active_positions =
      (b.battlerOf s).active_positions := by
  cases s <;> cases t <;> rfl

theorem hazard_toxic_battlerOf (env : Env) (b : BattleState) (side : Side)
    (hz : List (String × Nat)) (g : Bool) (types : List String)
    (p : Pokemon) (s : Side) :
    ((hazard_toxic env b side hz g types p).1).battlerOf s =
      b.battlerOf s := by
  simp only [hazard_toxic]
  repeat' split
  all_goals rfl

theorem apply_entry_hazards_active (env : Env) (b : BattleState)
    (side : Side) (i : Nat) (s : Side) :
    (((apply_entry_hazards env b side i).1).battlerOf s).active_positions =
      (b.battlerOf s).active_positions := by
  simp only [apply_entry_hazards]
  split
  · rfl
  · rw [setPoke_battlerOf_active, hazard_toxic_battlerOf]

theorem activeIndices_cons (bt : Battler) (p0 : Nat) (rest : List Nat)
    (hact : bt.active_positions = p0 :: rest) (hp0 : p0 < bt.party.length) :
    bt.activeIndices = p0 :: rest.filter (fun i => i < bt.party.length) := by
  rw [Battler.activeIndices, hact]
  simp [hp0]

/-- C10: whatever the battle format (doubles included), the engine acts
through a side's first active slot: the move attacker is the combatant
at the head of the acting side's active positions, the scheduler's speed
key reads that same combatant, and a switch (with its on-entry hooks)
replaces exactly the head active position, leaving the later slots
untouched; only the move's defender honors the action's
`target_position` (slot 0 when it is absent). -/
theorem c10_first_active_slot (env : Env) (b : BattleState)
    (action : BattleAction) (forced : Bool) (p0 q0 q1 : Nat)
    (prest qrest : List Nat)
    (hact : (b.battlerOf (sideFor b action.battler_id)).active_positions =
      p0 :: prest)
    (hp0 : p0 < (b.battlerOf (sideFor b action.battler_id)).party.length)
    (hdef : (b.battlerOf ((sideFor b action.battler_id).other)).active_positions
      = q0 :: q1 :: qrest)
    (hq0 : q0 <
      (b.battlerOf ((sideFor b action.battler_id).other)).party.length)
    (hq1 : q1 <
      (b.battlerOf ((sideFor b action.battler_id).other)).party.length) :
    (move_attacker_loc b action = (sideFor b action.battler_id, p0)) ∧
    (action.action_type = "move" →
      action_key env b action =
        ((((env.moves_db (action.move_id.getD "")).map
            (fun m => m.priority)).getD 0),
         (get_effective_speed env
           ((b.battlerOf (sideFor b action.battler_id)).party.getD p0
             default) : Int))) ∧
    (((execute_switch env b action forced).1.battlerOf
        (sideFor b action.battler_id)).active_positions =
      (action.switch_to_position.getD 0) :: prest) ∧
    (action.target_position = none →
      move_defender_loc b action = ((sideFor b action.battler_id).other, q0)) ∧
    (action.target_position = some 1 →
      move_defender_loc b action = ((sideFor b action.battler_id).other, q1)) := by
  have hai := activeIndices_cons _ _ _ hact hp0
  have hdi : (b.battlerOf ((sideFor b action.battler_id).other)).activeIndices
      = q0 :: q1 :: qrest.filter (fun i => i <
        (b.battlerOf ((sideFor b action.battler_id).other)).party.length) := by
    rw [Battler.activeIndices, hdef]
    simp [hq0, hq1]
  refine ⟨?_, ?_, ?_, ?_, ?_⟩
  · rw [move_attacker_loc]
    rw [hai]
    rfl
  · intro hmv
    rw [action_key]
    rw [if_neg (by simp [hmv]), if_neg (by simp [hmv]), if_pos (by simp [hmv])]
    simp only [Battler.get_active_pokemon, hai, List.map_cons,
      List.headD_cons]
  · rw [execute_switch]
    simp only [apply_entry_hazards_active]
    have hbb : ∀ bt, ((b.setBattler (sideFor b action.battler_id)
        bt).battlerOf (sideFor b action.battler_id)) = bt := by
      intro bt
      cases hs : sideFor b action.battler_id <;>
        simp [BattleState.setBattler, BattleState.battlerOf]
    rw [hbb]
    cases env.items_db <;>
      simp only [Battler.setPoke] <;>
      rw [hact] <;>
      rfl
  · intro ht
    rw [move_defender_loc, hdi, ht]
    rfl
  · intro ht
    rw [move_defender_loc, hdi, ht]
    rfl

/-- Witness for C10: in a doubles battle the trainer's action acts from
active slot 0, its switch rewrites only that slot, and the target field
selects the opposing second active combatant. -/
theorem c10_first_active_slot_witness :
    move_attacker_loc doublesBattle c10Action = (Side.trainer, 0) ∧
    ((execute_switch sampleEnv doublesBattle c10Action false).1.battlerOf
       Side.trainer).active_positions = [2, 1] ∧
    move_defender_loc doublesBattle c10Action = (Side.opponent, 1) := by
  have h := c10_first_active_slot sampleEnv doublesBattle c10Action false
    0 0 1 [1] [] (by decide) (by decide) (by decide) (by decide) (by decide)
  refine ⟨h.1, h.2.2.1, h.2.2.2.2 rfl⟩


/-! ### C3: the action scheduler as a stable descending sort

Generic facts about the stable insertion sort `ssort`, specialised to
the scheduler's strict order `sched_before`, giving an exact position
characterisation of `sort_actions_indexed`. -/

section SortLemmas

variable {α : Type} (before : α → α → Bool)

theorem sinsert_perm (x : α) (l : List α) :
    (sinsert before x l).Perm (x :: l) := by
  induction l with
  | nil => exact List.Perm.refl _
  | cons y ys ih =>
    rw [sinsert]
    split
    · exact List.Perm.refl _
    · exact (ih.cons y).trans (List.Perm.swap x y ys)

theorem ssort_perm (l : List α) : (ssort before l).Perm l := by
  induction l with
  | nil => exact List.Perm.refl _
  | cons x xs ih =>
    exact (sinsert_perm before x (ssort before xs)).trans (ih.cons x)

theorem sinsert_pairwise
    (htrans : ∀ a b c, before a b = true → before b c = true →
      before a c = true)
    (x : α) (l : List α)
    (hconn : ∀ b ∈ l, before x b = true ∨ before b x = true)
    (hs : l.Pairwise (fun a b => before a b = true)) :
    (sinsert before x l).Pairwise (fun a b => before a b = true) := by
  induction l with
  | nil => simp [sinsert]
  | cons y ys ih =>
    rw [sinsert]
    split
    case isTrue h =>
      refine List.Pairwise.cons ?_ hs
      intro z hz
      rcases List.mem_cons.1 hz with rfl | hz
      · exact h
      · exact htrans x y z h (List.rel_of_pairwise_cons hs hz)
    case isFalse h =>
      have hyx : before y x = true := by
        rcases hconn y (List.mem_cons_self y ys) with h1 | h1
        · exact absurd h1 h
        · exact h1
      refine List.Pairwise.cons ?_
        (ih (fun c hc => hconn c (List.mem_cons_of_mem _ hc))
          (List.Pairwise.of_cons hs))
      intro z hz
      have hz' := (sinsert_perm before x ys).mem_iff.1 hz
      rcases List.mem_cons.1 hz' with rfl | hz''
      · exact hyx
      · exact List.rel_of_pairwise_cons hs hz''

theorem ssort_pairwise
    (htrans : ∀ a b c, before a b = true → before b c = true →
      before a c = true)
    (l : List α)
    (hconn : ∀ a ∈ l, ∀ b ∈ l, a ≠ b →
      before a b = true ∨ before b a = true)
    (hnd : l.Nodup) :
    (ssort before l).Pairwise (fun a b => before a b = true) := by
  induction l with
  | nil => simp [ssort]
  | cons x xs ih =>
    rw [ssort]
    apply sinsert_pairwise before htrans x _ ?_ ?_
    · intro c hc
      have hc' : c ∈ xs := (ssort_perm before xs).subset hc
      have hne : x ≠ c := by
        intro he
        exact (List.nodup_cons.1 hnd).1 (he ▸ hc')
      exact hconn x (List.mem_cons_self x xs) c
        (List.mem_cons_of_mem _ hc') hne
    · exact ih
        (fun a ha => fun c hc hb =>
          hconn a (List.mem_cons_of_mem _ ha) c (List.mem_cons_of_mem _ hc) hb)
        (List.nodup_cons.1 hnd).2

theorem indexOf_lt_len [BEq α] [LawfulBEq α] (l : List α) (a : α)
    (h : a ∈ l) : l.indexOf a < l.length := by
  induction l with
  | nil => simp at h
  | cons x xs ih =>
    rw [List.indexOf_cons]
    cases hx : (x == a) with
    | true => simp
    | false =>
      have hx' : x ≠ a := by simpa using hx
      have hm : a ∈ xs := by
        rcases List.mem_cons.1 h with rfl | hm
        · exact absurd rfl hx'
        · exact hm
      simpa using ih hm

theorem getElem?_idx [BEq α] [LawfulBEq α] (l : List α) (a : α)
    (h : a ∈ l) : l[l.indexOf a]? = some a := by
  induction l with
  | nil => simp at h
  | cons x xs ih =>
    rcases hx : (x == a) with _ | _
    · have hx' : x ≠ a := by simpa using hx
      have hm : a ∈ xs := by
        rcases List.mem_cons.1 h with rfl | hm
        · exact absurd rfl hx'
        · exact hm
      rw [List.indexOf_cons, hx, cond_false]
      simpa using ih hm
    · rw [List.indexOf_cons, hx, cond_true]
      simpa using hx

theorem getElem_idx [BEq α] [LawfulBEq α] (l : List α) (a : α)
    (h : a ∈ l) (hlt : l.indexOf a < l.length) : l[l.indexOf a] = a := by
  have h2 := getElem?_idx l a h
  rw [List.getElem?_eq_getElem hlt] at h2
  exact Option.some.inj h2

theorem indexOf_mem_inj [BEq α] [LawfulBEq α] (l : List α) (a b : α)
    (ha : a ∈ l) (hb : b ∈ l) (h : l.indexOf a = l.indexOf b) : a = b := by
  have hia := indexOf_lt_len l a ha
  have hga := getElem_idx l a ha hia
  have hgb := getElem_idx l b hb (h ▸ hia)
  rw [← hga, ← hgb]
  congr 1

theorem pairwise_indexOf_lt [BEq α] [LawfulBEq α] (l : List α)
    (hp : l.Pairwise (fun a b => before a b = true))
    (a b : α) (ha : a ∈ l) (hb : b ∈ l) (hab : a ≠ b)
    (hasym : ¬(before a b = true ∧ before b a = true)) :
    (l.indexOf a < l.indexOf b ↔ before a b = true) := by
  have hia : l.indexOf a < l.length := indexOf_lt_len l a ha
  have hib : l.indexOf b < l.length := indexOf_lt_len l b hb
  have hpa := List.pairwise_iff_getElem.1 hp
  constructor
  · intro hlt
    have h2 := hpa (l.indexOf a) (l.indexOf b) hia hib hlt
    rwa [getElem_idx l a ha hia, getElem_idx l b hb hib] at h2
  · intro hba
    rcases Nat.lt_trichotomy (l.indexOf a) (l.indexOf b) with h | h | h
    · exact h
    · exact absurd (indexOf_mem_inj l a b ha hb h) hab
    · exfalso
      have h2 := hpa (l.indexOf b) (l.indexOf a) hib hia h
      rw [getElem_idx l a ha hia, getElem_idx l b hb hib] at h2
      exact hasym ⟨hba, h2⟩

end SortLemmas

theorem keyGt_trans (x y z : Int × Int) : keyGt x y = true →
    keyGt y z = true → keyGt x z = true := by
  simp only [keyGt, Bool.or_eq_true, Bool.and_eq_true, decide_eq_true_eq,
    beq_iff_eq]
  intro h1 h2
  rcases h1 with h1 | ⟨e1, l1⟩ <;> rcases h2 with h2 | ⟨e2, l2⟩ <;>
    [left; left; left; right] <;> omega

theorem keyGt_asymm (x y : Int × Int) :
    ¬(keyGt x y = true ∧ keyGt y x = true) := by
  simp only [keyGt, Bool.or_eq_true, Bool.and_eq_true, decide_eq_true_eq,
    beq_iff_eq]
  omega

theorem keyGt_conn (x y : Int × Int) (h : x ≠ y) :
    keyGt x y = true ∨ keyGt y x = true := by
  have h' : x.1 ≠ y.1 ∨ x.2 ≠ y.2 := by
    by_contra hc
    push_neg at hc
    exact h (Prod.ext hc.1 hc.2)
  simp only [keyGt, Bool.or_eq_true, Bool.and_eq_true, decide_eq_true_eq,
    beq_iff_eq]
  omega

theorem sched_before_trans (env : Env) (b : BattleState)
    (x y z : Nat × BattleAction) :
    sched_before env b x y = true → sched_before env b y z = true →
    sched_before env b x z = true := by
  simp only [sched_before, Bool.or_eq_true, Bool.and_eq_true, beq_iff_eq,
    decide_eq_true_eq]
  intro h1 h2
  rcases h1 with h1 | ⟨e1, i1⟩ <;> rcases h2 with h2 | ⟨e2, i2⟩
  · exact Or.inl (keyGt_trans _ _ _ h1 h2)
  · rw [← e2]
    exact Or.inl h1
  · rw [e1]
    exact Or.inl h2
  · exact Or.inr ⟨e1.trans e2, Nat.lt_trans i1 i2⟩

theorem sched_before_asymm (env : Env) (b : BattleState)
    (x y : Nat × BattleAction) :
    ¬(sched_before env b x y = true ∧ sched_before env b y x = true) := by
  simp only [sched_before, Bool.or_eq_true, Bool.and_eq_true, beq_iff_eq,
    decide_eq_true_eq]
  rintro ⟨h1 | ⟨e1, i1⟩, h2 | ⟨e2, i2⟩⟩
  · exact keyGt_asymm _ _ ⟨h1, h2⟩
  · rw [e2] at h1
    exact keyGt_asymm _ _ ⟨h1, h1⟩
  · rw [e1] at h2
    exact keyGt_asymm _ _ ⟨h2, h2⟩
  · omega

theorem sched_before_conn (env : Env) (b : BattleState)
    (x y : Nat × BattleAction) (h : x.1 ≠ y.1) :
    sched_before env b x y = true ∨ sched_before env b y x = true := by
  simp only [sched_before, Bool.or_eq_true, Bool.and_eq_true, beq_iff_eq,
    decide_eq_true_eq]
  by_cases he : action_key env b x.2 = action_key env b y.2
  · rcases Nat.lt_or_ge x.1 y.1 with hi | hi
    · exact Or.inl (Or.inr ⟨he, hi⟩)
    · exact Or.inr (Or.inr ⟨he.symm, by omega⟩)
  · rcases keyGt_conn _ _ he with hk | hk
    · exact Or.inl (Or.inl hk)
    · exact Or.inr (Or.inl hk)

theorem enum_fst_inj (acts : List BattleAction)
    (a c : Nat × BattleAction) (ha : a ∈ acts.enum) (hc : c ∈ acts.enum)
    (hne : a ≠ c) : a.1 ≠ c.1 := by
  intro he
  apply hne
  have ha' := List.mem_enum_iff_getElem?.1 ha
  have hc' := List.mem_enum_iff_getElem?.1 hc
  rw [he, hc'] at ha'
  exact Prod.ext he (by simpa using ha'.symm)

/-- C3 (amended): action `i` resolves before action `j` exactly when
the engine key — `(100, 999)` for a switch, `(90, 999)` for an item,
`(move priority, effective speed)` for a move, `(0, 0)` otherwise — of
action `i` is lexicographically greater, with registration order
breaking exact key ties. -/
theorem c3_sort_order (env : Env) (b : BattleState)
    (acts : List BattleAction) (i j : Nat)
    (hi : i < acts.length) (hj : j < acts.length) (hij : i ≠ j) :
    (sort_actions_indexed env b acts).indexOf (i, acts.getD i default) <
      (sort_actions_indexed env b acts).indexOf (j, acts.getD j default) ↔
    (keyGt (action_key env b (acts.getD i default))
        (action_key env b (acts.getD j default)) = true ∨
      (action_key env b (acts.getD i default) =
        action_key env b (acts.getD j default) ∧ i < j)) := by
  have hnd : acts.enum.Nodup :=
    List.Nodup.of_map Prod.fst (List.nodup_enum_map_fst acts)
  have hmi : (i, acts.getD i default) ∈ acts.enum := by
    rw [List.mem_enum_iff_getElem?]
    simp [List.getElem?_eq_getElem hi, List.getD_eq_getElem?_getD]
  have hmj : (j, acts.getD j default) ∈ acts.enum := by
    rw [List.mem_enum_iff_getElem?]
    simp [List.getElem?_eq_getElem hj, List.getD_eq_getElem?_getD]
  have hp := ssort_pairwise (sched_before env b) (sched_before_trans env b)
    acts.enum
    (fun a ha c hc hne => sched_before_conn env b a c
      (enum_fst_inj acts a c ha hc hne))
    hnd
  have hch := pairwise_indexOf_lt (sched_before env b)
    (ssort (sched_before env b) acts.enum) hp
    (i, acts.getD i default) (j, acts.getD j default)
    ((ssort_perm (sched_before env b) acts.enum).mem_iff.2 hmi)
    ((ssort_perm (sched_before env b) acts.enum).mem_iff.2 hmj)
    (fun h => hij (congrArg Prod.fst h))
    (sched_before_asymm env b _ _)
  rw [sort_actions_indexed, hch]
  simp only [sched_before, Bool.or_eq_true, Bool.and_eq_true, beq_iff_eq,
    decide_eq_true_eq]

/-- Counterexample to C3 as stated: with two registered switch actions
the engine keys both as `(100, 999)` — not the claimed effective-speed
pair `(100, 10)` vs `(100, 20)` — so registration order decides, while
the claimed key would place the faster side first. -/
theorem c3_counterexample : ¬ c3ClaimProp := by
  intro h
  have h2 := h sampleEnv twoSwitchBattle [sampleSwitch 1, sampleSwitch (-2)]
    0 1 (by decide) (by decide) (by decide)
  revert h2
  decide

/-- Witness for C3 (amended): both switches key to `(100, 999)`, so the
first-registered one resolves first. -/
theorem c3_sort_order_witness :
    (sort_actions_indexed sampleEnv twoSwitchBattle
        [sampleSwitch 1, sampleSwitch (-2)]).indexOf (0, sampleSwitch 1) <
      (sort_actions_indexed sampleEnv twoSwitchBattle
        [sampleSwitch 1, sampleSwitch (-2)]).indexOf
        (1, sampleSwitch (-2)) := by
  have h := c3_sort_order sampleEnv twoSwitchBattle
    [sampleSwitch 1, sampleSwitch (-2)] 0 1 (by decide) (by decide)
    (by decide)
  exact h.mpr (Or.inr ⟨by decide, by decide⟩)


/-! ### C4: where `process_turn` can leave the phase

Phase preservation through every stage of the turn pipeline: each action
leaves the phase alone or moves it to `FORCED_SWITCH` or `DAZED`, and the
end-of-turn AI auto-switch can only reset it to `WAITING_ACTIONS`. -/

theorem setPoke_phase (b : BattleState) (t : Side) (i : Nat) (p : Pokemon) :
    (b.setPoke t i p).phase = b.phase := by
  cases t <;> rfl

theorem setBattler_phase (b : BattleState) (s : Side) (bt : Battler) :
    (b.setBattler s bt).phase = b.phase := by
  cases s <;> rfl

theorem check_battle_end_phase (b : BattleState) :
    (check_battle_end b).phase = b.phase := by
  simp only [check_battle_end]
  repeat' split
  all_goals rfl

theorem hazard_toxic_phase (env : Env) (b : BattleState) (side : Side)
    (hz : List (String × Nat)) (gr : Bool) (types : List String)
    (p : Pokemon) :
    ((hazard_toxic env b side hz gr types p).1).phase = b.phase := by
  simp only [hazard_toxic]
  repeat' split
  all_goals rfl

theorem apply_entry_hazards_phase (env : Env) (b : BattleState)
    (side : Side) (i : Nat) :
    ((apply_entry_hazards env b side i).1).phase = b.phase := by
  simp only [apply_entry_hazards]
  split
  · rfl
  · rw [setPoke_phase, hazard_toxic_phase]

theorem execute_switch_phase (env : Env) (b : BattleState)
    (a : BattleAction) (forced : Bool) :
    ((execute_switch env b a forced).1).phase = b.phase := by
  simp only [execute_switch]
  rw [apply_entry_hazards_phase, setBattler_phase]

theorem execute_flee_phase (g : RNG) (b : BattleState) :
    ((execute_flee g b).1).phase = b.phase := by
  simp only [execute_flee]
  repeat' split
  all_goals rfl

theorem execute_move_faint_phase (b : BattleState) (ds : Side) (di : Nat)
    (msgs : List String) :
    ((execute_move_faint b ds di msgs).1).phase = b.phase ∨
    ((execute_move_faint b ds di msgs).1).phase = "FORCED_SWITCH" ∨
    ((execute_move_faint b ds di msgs).1).phase = "DAZED" := by
  simp only [execute_move_faint]
  split
  · right; right; rfl
  · split
    · split
      · split
        · right; left; rfl
        · left; exact check_battle_end_phase b
      · left; rfl
    · split
      · split
        · split
          · right; left; rfl
          · left; rfl
        · left; exact check_battle_end_phase b
      · left; rfl

theorem phase_of_faint (x : BattleState) (ds : Side) (di : Nat)
    (ms : List String) (s : String) (hx : x.phase = s) :
    ((execute_move_faint x ds di ms).1).phase = s ∨
    ((execute_move_faint x ds di ms).1).phase = "FORCED_SWITCH" ∨
    ((execute_move_faint x ds di ms).1).phase = "DAZED" := by
  rcases execute_move_faint_phase x ds di ms with h | h | h
  · left; exact h.trans hx
  · right; left; exact h
  · right; right; exact h

theorem execute_move_core_phase (env : Env) (g : RNG) (b : BattleState)
    (action : BattleAction) (A : Pokemon) (md : MoveData) :
    ((execute_move_core env g b action A md).1).phase = b.phase ∨
    ((execute_move_core env g b action A md).1).phase = "FORCED_SWITCH" ∨
    ((execute_move_core env g b action A md).1).phase = "DAZED" := by
  simp only [execute_move_core]
  generalize move_damage_pipeline env g b _ _ _ _ = P
  obtain ⟨dmg, eff, crit, msgs, D2, g2⟩ := P
  split <;> split
  all_goals first
    | (refine phase_of_faint _ _ _ _ _ ?_
       rw [setPoke_phase, setPoke_phase])
    | (left
       rw [setPoke_phase, setPoke_phase])

theorem execute_move_phase (env : Env) (g : RNG) (b : BattleState)
    (action : BattleAction) :
    ((execute_move env g b action).1).phase = b.phase ∨
    ((execute_move env g b action).1).phase = "FORCED_SWITCH" ∨
    ((execute_move env g b action).1).phase = "DAZED" := by
  simp only [execute_move]
  split
  · left; rfl
  · split
    · left; rfl
    · split
      · left; rfl
      · split
        · left; rfl
        · exact execute_move_core_phase env g b action _ _

theorem execute_action_phase (env : Env) (g : RNG) (b : BattleState)
    (a : BattleAction) :
    ((execute_action env g b a).1).phase = b.phase ∨
    ((execute_action env g b a).1).phase = "FORCED_SWITCH" ∨
    ((execute_action env g b a).1).phase = "DAZED" := by
  simp only [execute_action]
  split
  · exact execute_move_phase env g b a
  · split
    · left; exact execute_switch_phase env b a false
    · split
      · left; rfl
      · split
        · left; exact execute_flee_phase g b
        · left; rfl

theorem run_actions_phase (env : Env) (g : RNG) (b : BattleState)
    (acts : List BattleAction) :
    ((run_actions env g b acts).1).phase = b.phase ∨
    ((run_actions env g b acts).1).phase = "FORCED_SWITCH" ∨
    ((run_actions env g b acts).1).phase = "DAZED" := by
  induction acts generalizing g b with
  | nil => left; rfl
  | cons a rest ih =>
    simp only [run_actions]
    split
    · left; rfl
    · split
      · exact ih g b
      · split
        · exact ih g b
        · split
          · rcases ih _ _ with h | h | h
            · rcases execute_action_phase env g b a with he | he | he
              · left; rw [h]; exact he
              · right; left; rw [h]; exact he
              · right; right; rw [h]; exact he
            · right; left; exact h
            · right; right; exact h
          · rcases ih _ _ with h | h | h
            · rcases execute_action_phase env g b a with he | he | he
              · left; rw [h]; exact he
              · right; left; rw [h]; exact he
              · right; right; rw [h]; exact he
            · right; left; exact h
            · right; right; exact h

theorem force_switch_core_ok_phase (env : Env) (b : BattleState)
    (bid slot : Int) (r : BattleState × List String)
    (h : force_switch_core env b bid slot = .ok r) :
    r.1.phase = "WAITING_ACTIONS" := by
  simp only [force_switch_core] at h
  split at h
  · cases h
  · split at h
    · cases h
    · split at h
      · cases h
      · cases h
        rfl

theorem auto_switch_phase (env : Env) (b : BattleState) :
    ((auto_switch_if_forced_ai env b).1).phase = b.phase ∨
    ((auto_switch_if_forced_ai env b).1).phase = "WAITING_ACTIONS" := by
  simp only [auto_switch_if_forced_ai]
  split
  · left; rfl
  · split
    · left; rfl
    · split
      · left; rfl
      · split
        · left; rfl
        · next r heq =>
          right
          exact force_switch_core_ok_phase env b _ _ r heq

theorem foldl_phase (f : (BattleState × List String) → (Side × Nat) →
      BattleState × List String)
    (hf : ∀ acc loc, ((f acc loc).1).phase = acc.1.phase)
    (locs : List (Side × Nat)) (acc : BattleState × List String) :
    ((locs.foldl f acc).1).phase = acc.1.phase := by
  induction locs generalizing acc with
  | nil => rfl
  | cons l ls ih =>
    rw [List.foldl_cons, ih]
    exact hf acc l

theorem run_eot_status_phase (env : Env) (b : BattleState)
    (locs : List (Side × Nat)) :
    ((run_eot_status env b locs).1).phase = b.phase := by
  exact foldl_phase _ (fun acc loc => setPoke_phase _ _ _ _) locs (b, [])

theorem run_weather_phase (env : Env) (w : String) (b : BattleState)
    (locs : List (Side × Nat)) :
    ((run_weather env w b locs).1).phase = b.phase := by
  exact foldl_phase _ (fun acc loc => setPoke_phase _ _ _ _) locs (b, [])

theorem process_end_of_turn_phase (env : Env) (b : BattleState) :
    ((process_end_of_turn env b).1).phase = b.phase := by
  simp only [process_end_of_turn]
  repeat' split
  all_goals simp only [run_weather_phase, run_eot_status_phase]

theorem run_actions_phase4 (env : Env) (g : RNG) (b : BattleState)
    (acts : List BattleAction) (s : String) (h : b.phase = s) :
    ((run_actions env g b acts).1).phase = s ∨
    ((run_actions env g b acts).1).phase = "FORCED_SWITCH" ∨
    ((run_actions env g b acts).1).phase = "DAZED" ∨
    ((run_actions env g b acts).1).phase = "WAITING_ACTIONS" := by
  rcases run_actions_phase env g b acts with hh | hh | hh
  · left; exact hh.trans h
  · right; left; exact hh
  · right; right; left; exact hh

theorem phase_of_auto (env : Env) (x : BattleState) (s : String)
    (h3 : x.phase = s ∨ x.phase = "FORCED_SWITCH" ∨ x.phase = "DAZED") :
    ((auto_switch_if_forced_ai env x).1).phase = s ∨
    ((auto_switch_if_forced_ai env x).1).phase = "FORCED_SWITCH" ∨
    ((auto_switch_if_forced_ai env x).1).phase = "DAZED" ∨
    ((auto_switch_if_forced_ai env x).1).phase = "WAITING_ACTIONS" := by
  rcases auto_switch_phase env x with h | h
  · rcases h3 with h3 | h3 | h3
    · left; exact h.trans h3
    · right; left; exact h.trans h3
    · right; right; left; exact h.trans h3
  · right; right; right; exact h

theorem process_turn_phase (env : Env) (g : RNG) (b : BattleState) :
    ((process_turn env g b).1).phase = b.phase ∨
    ((process_turn env g b).1).phase = "FORCED_SWITCH" ∨
    ((process_turn env g b).1).phase = "DAZED" ∨
    ((process_turn env g b).1).phase = "WAITING_ACTIONS" := by
  simp only [process_turn]
  split
  · split
    · show (check_battle_end _).phase = _ ∨ _ ∨ _ ∨ _
      rw [check_battle_end_phase]
      split
      · exact run_actions_phase4 env _ _ _ _ rfl
      · refine phase_of_auto env _ _ ?_
        rw [process_end_of_turn_phase]
        exact run_actions_phase env _ _ _
    · show (check_battle_end _).phase = _ ∨ _ ∨ _ ∨ _
      rw [check_battle_end_phase]
      split
      · exact run_actions_phase4 env _ _ _ _ rfl
      · refine phase_of_auto env _ _ ?_
        rw [process_end_of_turn_phase]
        exact run_actions_phase env _ _ _
  · split
    · show (check_battle_end _).phase = _ ∨ _ ∨ _ ∨ _
      rw [check_battle_end_phase]
      split
      · exact run_actions_phase4 env _ _ _ _ rfl
      · refine phase_of_auto env _ _ ?_
        rw [process_end_of_turn_phase]
        exact run_actions_phase env _ _ _
    · show (check_battle_end _).phase = _ ∨ _ ∨ _ ∨ _
      rw [check_battle_end_phase]
      split
      · exact run_actions_phase4 env _ _ _ _ rfl
      · refine phase_of_auto env _ _ ?_
        rw [process_end_of_turn_phase]
        exact run_actions_phase env _ _ _

/-- Counterexample to C4 as stated: when the trainer knocks out the
last opposing combatant, `process_turn` sets `is_over` but never touches
`phase`, which stays `WAITING_ACTIONS` — two of the four alternatives
hold at once, so "exactly one" fails. -/
theorem c4_counterexample : ¬ c4ClaimProp := by
  intro h
  exact absurd (h sampleEnv [] trainerKillBattle rfl) (by decide)

/-- C4 (amended): after `process_turn` on a battle awaiting actions, at
least one of `is_over`, `phase = FORCED_SWITCH`, `phase = DAZED`,
`phase = WAITING_ACTIONS` holds (the phase always lands in one of those
three values; exclusivity fails because `is_over` never resets the
phase). -/
theorem c4_phase_partition (env : Env) (g : RNG) (b : BattleState)
    (h : b.phase = "WAITING_ACTIONS") :
    ((process_turn env g b).1).is_over = true ∨
    ((process_turn env g b).1).phase = "FORCED_SWITCH" ∨
    ((process_turn env g b).1).phase = "DAZED" ∨
    ((process_turn env g b).1).phase = "WAITING_ACTIONS" := by
  rcases process_turn_phase env g b with hh | hh | hh | hh
  · right; right; right; exact hh.trans h
  · right; left; exact hh
  · right; right; left; exact hh
  · right; right; right; exact hh

/-- Witness for C4 (amended): a quiet turn of the calm battle. -/
theorem c4_phase_partition_witness :
    ((process_turn sampleEnv [] calmBattle).1).is_over = true ∨
    ((process_turn sampleEnv [] calmBattle).1).phase = "FORCED_SWITCH" ∨
    ((process_turn sampleEnv [] calmBattle).1).phase = "DAZED" ∨
    ((process_turn sampleEnv [] calmBattle).1).phase = "WAITING_ACTIONS" :=
  c4_phase_partition sampleEnv [] calmBattle rfl


/-! ### C1: wild-mode knockouts convert to a daze -/

theorem setPoke_battle_type (b : BattleState) (t : Side) (i : Nat)
    (p : Pokemon) : (b.setPoke t i p).battle_type = b.battle_type := by
  cases t <;> rfl

/-- C1: wild-mode daze.  A move that brings the defender's HP to zero
routes through the faint handler with the defender's location; in wild
mode with the opponent's combatant down, that handler clamps HP to 1,
sets `wild_dazed` and phase `DAZED`, and leaves `is_over` and `winner`
untouched; a dazed battle executes no further actions this turn; a dazed
turn skips end-of-turn effects and the AI auto-switch entirely; and the
closing terminal check leaves a battle with both sides usable alone. -/
theorem c1_wild_daze (env : Env) :
    (∀ (g : RNG) (b : BattleState) (action : BattleAction) (A D : Pokemon)
        (md : MoveData) (dmg : Nat) (eff : Rat) (crit : Bool)
        (emsgs : List String) (g2 : RNG),
      move_damage_pipeline env g b
          { A with moves := deductPP A.moves (action.move_id.getD "") }
          ((b.battlerOf (move_defender_loc b action).1).party.getD
            (move_defender_loc b action).2 default)
          (action.move_id.getD "") md = (dmg, eff, crit, emsgs, D, g2) →
      D.current_hp ≤ dmg → 0 < dmg →
      (move_defender_loc b action).2 <
        (b.battlerOf (move_defender_loc b action).1).party.length →
      ∃ (b1 : BattleState) (ms : List String),
        execute_move_core env g b action A md =
          ((execute_move_faint b1 (move_defender_loc b action).1
              (move_defender_loc b action).2 ms).1,
           (execute_move_faint b1 (move_defender_loc b action).1
              (move_defender_loc b action).2 ms).2, g2) ∧
        ((b1.battlerOf (move_defender_loc b action).1).party.getD
          (move_defender_loc b action).2 default) =
          { D with current_hp := 0 } ∧
        b1.battle_type = b.battle_type) ∧
    (∀ (b : BattleState) (di : Nat) (msgs : List String),
      b.battle_type = BattleType.WILD →
      execute_move_faint b Side.opponent di msgs =
        ({ b.setPoke Side.opponent di
             { (b.battlerOf Side.opponent).party.getD di default with
               current_hp := 1 } with
           wild_dazed := true, phase := "DAZED" },
         msgs ++ ["The wild " ++
           ((b.battlerOf Side.opponent).party.getD di default).species_name
           ++ " is dazed!"])) ∧
    (∀ (b : BattleState) (di : Nat) (msgs : List String),
      b.battle_type = BattleType.WILD →
      di < (b.battlerOf Side.opponent).party.length →
      ((((execute_move_faint b Side.opponent di msgs).1).battlerOf
          Side.opponent).party.getD di default).current_hp = 1 ∧
      ((execute_move_faint b Side.opponent di msgs).1).wild_dazed = true ∧
      ((execute_move_faint b Side.opponent di msgs).1).phase = "DAZED" ∧
      ((execute_move_faint b Side.opponent di msgs).1).is_over = b.is_over ∧
      ((execute_move_faint b Side.opponent di msgs).1).winner = b.winner) ∧
    (∀ (g : RNG) (b : BattleState) (acts : List BattleAction),
      b.wild_dazed = true → run_actions env g b acts = (b, [], g)) ∧
    (∀ (g : RNG) (b : BattleState),
      b.trainer.is_ai = false → b.opponent.is_ai = false →
      ((run_actions env g { b with turn_log := [] }
          (sort_actions env { b with turn_log := [] }
            (b.pending_actions.map (fun e => e.2)))).1).wild_dazed = true →
      (process_turn env g b).1 =
        (let ra := run_actions env g { b with turn_log := [] }
            (sort_actions env { b with turn_log := [] }
              (b.pending_actions.map (fun e => e.2)))
         { check_battle_end
             { ra.1 with turn_log := ra.1.turn_log ++ [] } with
           pending_actions := [],
           turn_number := (check_battle_end
             { ra.1 with turn_log := ra.1.turn_log ++ [] }).turn_number
             + 1 })) ∧
    (∀ (b : BattleState), b.trainer.has_usable_pokemon = true →
      b.opponent.has_usable_pokemon = true → check_battle_end b = b) := by
  have h1 : ∀ (b : BattleState) (di : Nat) (msgs : List String),
      b.battle_type = BattleType.WILD →
      execute_move_faint b Side.opponent di msgs =
        ({ b.setPoke Side.opponent di
             { (b.battlerOf Side.opponent).party.getD di default with
               current_hp := 1 } with
           wild_dazed := true, phase := "DAZED" },
         msgs ++ ["The wild " ++
           ((b.battlerOf Side.opponent).party.getD di default).species_name
           ++ " is dazed!"]) := by
    intro b di msgs hw
    simp only [execute_move_faint, hw]
    simp
  refine ⟨?_, h1, ?_, ?_, ?_, ?_⟩
  · intro g b action A D md dmg eff crit emsgs g2 hpipe hko hdmg hdi
    have hside : (move_defender_loc b action).1 ≠
        (move_attacker_loc b action).1 := by
      rw [move_loc_sides]
      exact other_ne _
    simp only [execute_move_core, hpipe]
    rw [if_pos hdmg]
    rw [if_pos (show ((({ D with
        current_hp := D.current_hp - dmg } : Pokemon)).current_hp == 0) =
        true by simp [Nat.sub_eq_zero_of_le hko])]
    refine ⟨_, _, rfl, ?_, ?_⟩
    · rw [battlerOf_setPoke_same,
        battlerOf_setPoke_other _ _ _ _ _ (Ne.symm hside), Battler.setPoke]
      simp only [getD_set_self _ _ _ (by simpa using hdi)]
      rw [Nat.sub_eq_zero_of_le hko]
    · rw [setPoke_battle_type, setPoke_battle_type]
  · intro b di msgs hw hdi
    rw [h1 b di msgs hw]
    refine ⟨?_, rfl, rfl, rfl, rfl⟩
    show (((b.setPoke Side.opponent di _).battlerOf
      Side.opponent).party.getD di default).current_hp = 1
    rw [battlerOf_setPoke_same, Battler.setPoke]
    simp only [getD_set_self _ _ _ (by simpa using hdi)]
  · intro g b acts hwd
    cases acts with
    | nil => rfl
    | cons a rest =>
      simp only [run_actions, hwd]
      simp
  · intro g b hta hoa hwd
    simp only [process_turn, hta, hoa, Bool.false_and, Bool.false_eq_true,
      if_false]
    rw [if_pos hwd]
  · intro b ht ho
    simp only [check_battle_end, ht, ho]
    simp

/-- Witness for C1: the wild battle end to end — the tackle dazes the
wild combatant at 1 HP, phase `DAZED`, battle not over, no winner. -/
theorem c1_wild_daze_witness :
    execute_move_faint wildBattle Side.opponent 0 [] =
      ({ wildBattle.setPoke Side.opponent 0
           { (wildBattle.battlerOf Side.opponent).party.getD 0 default with
             current_hp := 1 } with
         wild_dazed := true, phase := "DAZED" },
       ["The wild " ++
         ((wildBattle.battlerOf Side.opponent).party.getD 0
           default).species_name ++ " is dazed!"]) ∧
    run_actions sampleEnv [] dazedWildBattle [sampleMove (-1)] =
      (dazedWildBattle, [], []) ∧
    ((process_turn sampleEnv [] wildBattle).1).wild_dazed = true ∧
    ((process_turn sampleEnv [] wildBattle).1).phase = "DAZED" ∧
    ((((process_turn sampleEnv [] wildBattle).1).battlerOf
        Side.opponent).party.getD 0 default).current_hp = 1 ∧
    ((process_turn sampleEnv [] wildBattle).1).is_over = false ∧
    ((process_turn sampleEnv [] wildBattle).1).winner = none := by
  have h := c1_wild_daze sampleEnv
  exact ⟨h.2.1 wildBattle 0 [] rfl,
    h.2.2.2.1 [] dazedWildBattle [sampleMove (-1)] rfl,
    by decide, by decide, by decide, by decide, by decide⟩

end Pokebot
